import Mathlib

/-!
Verification development for the FortifAI-FE repository.

The development shallowly embeds the backend services of the repository:
the Parquet-backed asset-graph builder with its TTL cache
(src/backend/src/services/s3Service.ts), the Express route handlers
(src/backend/src/index.ts), the two EC2 relocation workflows
(the standalone AMI-based script and src/backend/src/services/EnvAction.ts),
and the Next.js API-gateway proxy (src/src/pages/api/proxy/[...path].ts).

JavaScript dynamic values are modelled by the inductive type JsVal, with
Option JsVal standing for a possibly-undefined value.  Stateful code is
embedded by explicit state passing (the cache is threaded through every
storage read); external I/O is modelled by environment functions that map
a call position (the number of API calls issued so far) and the call
arguments to the response of the external service.
-/

set_option autoImplicit false

/-- Model of a JavaScript runtime value as stored in a parsed Parquet record:
a string, a number, a boolean, or an array.  A missing (undefined) value is
modelled as none at type Option JsVal. -/
inductive JsVal where
  | str (s : String)
  | num (n : Int)
  | bool (b : Bool)
  | arr (elems : List JsVal)

/-- JavaScript truthiness of a defined value: empty strings, the number 0 and
false are falsy; arrays (objects) are always truthy. -/
def jsTruthy : JsVal → Bool
  | JsVal.str s => !(s == "")
  | JsVal.num n => !(n == 0)
  | JsVal.bool b => b
  | JsVal.arr _ => true

/-- Truthiness of a possibly-undefined value: undefined is falsy. -/
def jsTruthyO : Option JsVal → Bool
  | none => false
  | some v => jsTruthy v

/-- JavaScript string conversion as used in template literals.  Arrays are
joined by commas, matching Array.prototype.toString. -/
def jsToString : JsVal → String
  | JsVal.str s => s
  | JsVal.num n => toString n
  | JsVal.bool b => if b then "true" else "false"
  | JsVal.arr elems => String.intercalate "," (elems.map fun e =>
      match e with
      | JsVal.str s => s
      | JsVal.num n => toString n
      | JsVal.bool b => if b then "true" else "false"
      | JsVal.arr _ => "")

/-- Interpolation of a possibly-undefined value in a template literal:
undefined prints as the string undefined. -/
def jsTemplate : Option JsVal → String
  | none => "undefined"
  | some v => jsToString v

/-- The JavaScript logical-or a || b on possibly-undefined values: the first
operand if truthy, otherwise the second. -/
def jsOr (a b : Option JsVal) : Option JsVal :=
  if jsTruthyO a then a else b

/-- The JavaScript strict equality a === b on possibly-undefined values.
Primitive values compare by value and undefined === undefined holds; two
array (object) values taken from distinct parsed records are distinct
references, so object comparison yields false. -/
def jsStrictEq : Option JsVal → Option JsVal → Bool
  | none, none => true
  | some (JsVal.str a), some (JsVal.str b) => a == b
  | some (JsVal.num a), some (JsVal.num b) => a == b
  | some (JsVal.bool a), some (JsVal.bool b) => a == b
  | _, _ => false

/-- Model of String.prototype.toLowerCase, written so that it evaluates by
kernel reduction. -/
def jsToLower (s : String) : String := String.mk (s.data.map Char.toLower)

def jsSplitChars (sep : Char) : List Char → List (List Char)
  | [] => [[]]
  | c :: rest =>
      let r := jsSplitChars sep rest
      if c == sep then [] :: r
      else
        match r with
        | [] => [[c]]
        | g :: gs => (c :: g) :: gs

/-- Model of String.prototype.split with a single-character separator,
written so that it evaluates by kernel reduction: splitting the empty
string yields one empty segment, as in JavaScript. -/
def jsSplit (s : String) (sep : Char) : List String :=
  (jsSplitChars sep s.data).map (fun cs => String.mk cs)

/-- A parsed Parquet record: an object given by its fields in order. -/
abbrev Record : Type := List (String × JsVal)

/-- Property read record.F on a parsed record: the field value, or undefined
when the field is absent. -/
def getField (r : Record) (k : String) : Option JsVal :=
  (r.find? (fun p => p.1 == k)).map (fun p => p.2)

/-- A dynamically-built JavaScript object whose properties may be set to
undefined (the metadata objects of the asset transform). -/
abbrev Obj : Type := List (String × Option JsVal)

/-- Property read on a dynamically-built object.  Later assignments win, as
for JavaScript property updates and object spread followed by override. -/
def objGet (o : Obj) (k : String) : Option JsVal :=
  match (o.filter (fun p => p.1 == k)).getLast? with
  | some p => p.2
  | none => none

/-- One entry of the s3Service in-memory cache: the parsed records of a file
and the timestamp at which they were stored. -/
structure CacheEntry where
  data : List Record
  timestamp : Nat

/-- The s3Service cache: a Map from storage object key to cache entry,
modelled as an association list in insertion order. -/
abbrev Cache : Type := List (String × CacheEntry)

/-- Map.get on the cache. -/
def cacheGet (c : Cache) (k : String) : Option CacheEntry :=
  (c.find? (fun p => p.1 == k)).map (fun p => p.2)

/-- Map.set on the cache: update the entry in place (keeping its position)
if the key is present, otherwise append the new entry. -/
def cacheSet : Cache → String → CacheEntry → Cache
  | [], k, e => [(k, e)]
  | p :: rest, k, e => if p.1 == k then (k, e) :: rest else p :: cacheSet rest k e

/-- CACHE_TTL = 10 * 1000 milliseconds. -/
def CACHE_TTL : Nat := 10 * 1000

/-- S3Service.isCacheValid: a missing entry is invalid, an entry is valid
while the elapsed time since its timestamp is below CACHE_TTL. -/
def isCacheValid (now : Nat) : Option CacheEntry → Bool
  | none => false
  | some entry => now - entry.timestamp < CACHE_TTL

/-- The environment of s3Service: the result of downloading and parsing the
object stored under a key, either its records or a thrown error message. -/
abbrev S3Env : Type := String → Except String (List Record)

/-- The fetch-and-parse path of S3Service.readParquetFile: download the
object, parse it, and on success store the records in the cache with the
current timestamp.  The third component records that a fetch was issued. -/
def fetchParquet (env : S3Env) (now : Nat) (cache : Cache) (key : String) :
    Except String (List Record) × Cache × Bool :=
  match env key with
  | Except.error e => (Except.error e, cache, true)
  | Except.ok records =>
      (Except.ok records, cacheSet cache key { data := records, timestamp := now }, true)

/-- S3Service.readParquetFile: return the cached records when a valid cache
entry exists, otherwise fetch, parse and cache.  The boolean component
records whether the file was fetched (as opposed to served from cache). -/
def readParquetFile (env : S3Env) (now : Nat) (cache : Cache) (key : String) :
    Except String (List Record) × Cache × Bool :=
  match cacheGet cache key with
  | some entry =>
      if isCacheValid now (some entry) then (Except.ok entry.data, cache, false)
      else fetchParquet env now cache key
  | none => fetchParquet env now cache key

/-- A graph node produced by the asset transform: the shape
returned by S3Service.transformAssetData and by the synthesized frames. -/
structure AssetData where
  id : Option JsVal
  name : Option JsVal
  type : String
  group : String
  val : Nat
  metadata : Obj

/-- S3Service.getAssetGroup. -/
def getAssetGroup : String → String
  | "EC2" => "Compute"
  | "VPC" => "Networking"
  | "Subnet" => "Networking"
  | "IGW" => "Networking"
  | "SG" => "Networking"
  | "NI" => "Networking"
  | "S3" => "Storage"
  | "IAMRole" => "Administrative"
  | "IAMPolicy" => "Administrative"
  | "IAMUser" => "Administrative"
  | t => t

/-- S3Service.getNameFromRecord. -/
def getNameFromRecord (record : Record) (assetType : String) : Option JsVal :=
  match assetType with
  | "EC2" => getField record "InstanceId"
  | "VPC" => getField record "VpcId"
  | "Subnet" => getField record "SubnetId"
  | "S3" => getField record "Name"
  | "IGW" => getField record "InternetGatewayId"
  | "SG" => getField record "GroupId"
  | "NI" => getField record "NetworkInterfaceId"
  | "IAMRole" => getField record "RoleName"
  | "IAMPolicy" => getField record "PolicyName"
  | "IAMUser" => getField record "UserName"
  | _ => jsOr (getField record "UniqueId") (some (JsVal.str "Unknown"))

/-- The per-asset-type metadata object built by S3Service.transformAssetData,
in source order; asset types with no case fall to the default branch and add
no fields beyond assetType. -/
def transformMetadata (assetType : String) (record : Record) : Obj :=
  ("assetType", some (JsVal.str assetType)) ::
  (match assetType with
   | "EC2" =>
       [("instanceId", getField record "InstanceId"),
        ("instanceType", getField record "InstanceType"),
        ("state", getField record "State"),
        ("privateIpAddress", getField record "PrivateIpAddress"),
        ("publicIpAddress", getField record "PublicIpAddress"),
        ("launchTime", getField record "LaunchTime"),
        ("networkInterfaces", getField record "NetworkInterfaces"),
        ("architecture", getField record "Architecture"),
        ("platformDetails", getField record "PlatformDetails"),
        ("VpcId", getField record "VpcId"),
        ("subnetId", getField record "SubnetId"),
        ("IsAI", getField record "IsAI"),
        ("AIDetectionDetails", getField record "AIDetectionDetails"),
        ("tags", getField record "Tags")]
   | "VPC" =>
       [("VpcId", getField record "VpcId"),
        ("cidrBlock", getField record "CidrBlock"),
        ("tags", getField record "Tags")]
   | "Subnet" =>
       [("subnetId", getField record "SubnetId"),
        ("subnetArn", getField record "SubnetArn"),
        ("VpcId", getField record "VpcId"),
        ("cidrBlock", getField record "CidrBlock"),
        ("availabilityZone", getField record "AvailabilityZone"),
        ("state", getField record "State"),
        ("ownerId", getField record "OwnerId"),
        ("ipv6CidrBlockAssociationSet", getField record "Ipv6CidrBlockAssociationSet"),
        ("tags", getField record "Tags")]
   | "S3" =>
       [("bucketName", getField record "Name"),
        ("creationDate", getField record "CreationDate"),
        ("tags", getField record "Tags")]
   | "IGW" =>
       [("internetGatewayId", getField record "InternetGatewayId"),
        ("VpcId", getField record "VpcId"),
        ("tags", getField record "Tags")]
   | "SG" =>
       [("groupId", getField record "GroupId"),
        ("VpcId", getField record "VpcId"),
        ("description", getField record "Description"),
        ("tags", getField record "Tags")]
   | "NI" =>
       [("networkInterfaceId", getField record "NetworkInterfaceId"),
        ("availabilityZone", getField record "AvailabilityZone"),
        ("privateIpAddress", getField record "PrivateIpAddress"),
        ("publicIp", getField record "PublicIp"),
        ("description", getField record "Description"),
        ("attachmentId", getField record "AttachmentId"),
        ("instanceId", getField record "InstanceId"),
        ("VpcId", getField record "VpcId"),
        ("subnetId", getField record "SubnetId"),
        ("groupId", getField record "GroupId"),
        ("tags", getField record "Tags")]
   | "IAMRole" =>
       [("roleId", getField record "RoleId"),
        ("roleName", getField record "RoleName"),
        ("assumeRolePolicyDocument", getField record "AssumeRolePolicyDocument"),
        ("attachedPolicyNames", getField record "AttachedPolicyNames"),
        ("inlinePolicyNames", getField record "InlinePolicyNames"),
        ("tags", getField record "Tags")]
   | "IAMPolicy" =>
       [("policyId", getField record "PolicyId"),
        ("policyName", getField record "PolicyName"),
        ("document", getField record "Document"),
        ("attachmentCount", getField record "AttachmentCount"),
        ("permissionsBoundaryUsageCount", getField record "PermissionsBoundaryUsageCount"),
        ("tags", getField record "Tags")]
   | "User" =>
       [("userId", getField record "UserId"),
        ("userName", getField record "UserName"),
        ("accessKeyIds", getField record "AccessKeyIds"),
        ("attachedPolicyNames", getField record "AttachedPolicyNames"),
        ("inlinePolicyNames", getField record "InlinePolicyNames"),
        ("tags", getField record "Tags")]
   | _ => [])

/-- The per-record body of S3Service.transformAssetData: the id is the first
truthy of record.<type>_id, record.<type>Id and record.id, the name comes
from getNameFromRecord, and the metadata from the per-type switch. -/
def transformRecord (assetType : String) (record : Record) : AssetData :=
  { id := jsOr (getField record (jsToLower assetType ++ "_id"))
          (jsOr (getField record (jsToLower assetType ++ "Id")) (getField record "id")),
    name := getNameFromRecord record assetType,
    type := assetType,
    group := getAssetGroup assetType,
    val := 1,
    metadata := transformMetadata assetType record }

/-- S3Service.transformAssetData: map the per-record transform over the file
records. -/
def transformAssetData (assetType : String) (data : List Record) : List AssetData :=
  data.map (transformRecord assetType)

/-- A link of the emitted graph. -/
structure Link where
  source : Option JsVal
  target : Option JsVal
  value : Nat

/-- The VPC frame node synthesized by S3Service.createLinks for a VPC node:
its id interpolates the VPC node id into frame-, and its metadata is the
spread of the VPC metadata with assetType overridden. -/
def mkVpcFrame (vpc : AssetData) : AssetData :=
  { id := some (JsVal.str ("frame-" ++ jsTemplate vpc.id)),
    name := some (JsVal.str ("VPC: " ++ jsTemplate vpc.name)),
    type := "VPC_FRAME",
    group := "FRAME",
    val := 2,
    metadata := vpc.metadata ++ [("assetType", some (JsVal.str "VPC_FRAME"))] }

/-- The Administrative frame node synthesized by S3Service.createLinks. -/
def adminFrame : AssetData :=
  { id := some (JsVal.str "frame-administrative"),
    name := some (JsVal.str "Administrative"),
    type := "ADMIN_FRAME",
    group := "FRAME",
    val := 2,
    metadata := [("assetType", some (JsVal.str "ADMIN_FRAME"))] }

/-- The Storage frame node synthesized by S3Service.createLinks. -/
def storageFrame : AssetData :=
  { id := some (JsVal.str "frame-storage"),
    name := some (JsVal.str "Storage"),
    type := "STORAGE_FRAME",
    group := "FRAME",
    val := 2,
    metadata := [("assetType", some (JsVal.str "STORAGE_FRAME"))] }

/-- S3Service.createLinks.  The function also pushes the synthesized frame
nodes onto the node array it is given; the returned pair is (links, nodes
after the push).  Per VPC node it links the VPC and the matching Subnet, SG,
NetworkInterface and EC2 nodes to the VPC frame, then links IAM nodes to the
administrative frame, S3 nodes to the storage frame, and finally adds a
cross-VPC link for every node of type NetworkInterface with a truthy
metadata VpcId. -/
def createLinks (nodes : List AssetData) : List Link × List AssetData :=
  let vpcNodes := nodes.filter (fun n => n.type == "VPC")
  let subnetNodes := nodes.filter (fun n => n.type == "Subnet")
  let sgNodes := nodes.filter (fun n => n.type == "SG")
  let networkInterfaceNodes := nodes.filter (fun n => n.type == "NetworkInterface")
  let ec2Nodes := nodes.filter (fun n => n.type == "EC2")
  let vpcFrames := vpcNodes.map mkVpcFrame
  let nodes2 := nodes ++ vpcFrames ++ [adminFrame, storageFrame]
  let vpcLinks := (vpcNodes.map (fun vpc =>
    let vpcFrameId : Option JsVal := some (JsVal.str ("frame-" ++ jsTemplate vpc.id))
    ({ source := vpc.id, target := vpcFrameId, value := 2 } : Link) ::
    ((subnetNodes.filter (fun s => jsStrictEq (objGet s.metadata "VpcId") (objGet vpc.metadata "VpcId"))).map
        (fun s => ({ source := s.id, target := vpcFrameId, value := 1 } : Link))
      ++ (sgNodes.filter (fun s => jsStrictEq (objGet s.metadata "VpcId") (objGet vpc.metadata "VpcId"))).map
        (fun s => ({ source := s.id, target := vpcFrameId, value := 1 } : Link))
      ++ (networkInterfaceNodes.filter (fun s => jsStrictEq (objGet s.metadata "VpcId") (objGet vpc.metadata "VpcId"))).map
        (fun s => ({ source := s.id, target := vpcFrameId, value := 1 } : Link))
      ++ (ec2Nodes.filter (fun s => jsStrictEq (objGet s.metadata "VpcId") (objGet vpc.metadata "VpcId"))).map
        (fun s => ({ source := s.id, target := vpcFrameId, value := 1 } : Link))))).flatten
  let adminLinks := (nodes2.filter (fun n =>
      n.type == "IAMRole" || n.type == "IAMPolicy" || n.type == "IAMUser")).map
    (fun n => ({ source := n.id, target := adminFrame.id, value := 1 } : Link))
  let storageLinks := (nodes2.filter (fun n => n.type == "S3")).map
    (fun n => ({ source := n.id, target := storageFrame.id, value := 1 } : Link))
  let crossVpcLinks := networkInterfaceNodes.filterMap (fun ni =>
    match objGet ni.metadata "VpcId" with
    | some v =>
        if jsTruthy v then
          some ({ source := ni.id, target := some (JsVal.str ("frame-" ++ jsToString v)), value := 1 } : Link)
        else none
    | none => none)
  (vpcLinks ++ adminLinks ++ storageLinks ++ crossVpcLinks, nodes2)

/-- One row of the asset directory file, as mapped by
S3Service.getAssetDirectory. -/
structure AssetDirectoryEntry where
  AssetType : Option JsVal
  AssetTable : Option JsVal

/-- The fixed key of the asset directory file. -/
def assetDirectoryPath : String := "Assets/AssetDirectory.parquet"

/-- S3Service.getAssetDirectory: read the directory file and map each record
to its AssetType and AssetTable fields; any read failure is rethrown as the
fixed failure message. -/
def getAssetDirectory (env : S3Env) (now : Nat) (cache : Cache) :
    Except String (List AssetDirectoryEntry) × Cache :=
  match readParquetFile env now cache assetDirectoryPath with
  | (Except.ok records, c, _) =>
      (Except.ok (records.map (fun r =>
        { AssetType := getField r "AssetType", AssetTable := getField r "AssetTable" })), c)
  | (Except.error _, c, _) => (Except.error "Failed to read asset directory", c)

/-- The body of the per-asset-type loop of S3Service.getGraphData: read the
asset table and transform its records; any failure inside the loop body
(a non-string table key, a failed read, or a transform that throws because a
non-string AssetType has no toLowerCase) is caught and the asset type is
skipped, contributing no nodes.  A successful read updates the cache even if
the transform then throws. -/
def processAssetTable (env : S3Env) (now : Nat) (cache : Cache) :
    Option JsVal → Option JsVal → List AssetData × Cache
  | some (JsVal.str key), assetType =>
      (match readParquetFile env now cache key with
       | (Except.ok records, c2, _) =>
           (match assetType, records with
            | some (JsVal.str ty), _ => (transformAssetData ty records, c2)
            | _, _ => ([], c2))
       | (Except.error _, c2, _) => ([], c2))
  | _, _ => ([], cache)

def processAsset (env : S3Env) (now : Nat) (cache : Cache) (asset : AssetDirectoryEntry) :
    List AssetData × Cache :=
  processAssetTable env now cache asset.AssetTable asset.AssetType

/-- The cache-threaded fold of processAsset over the asset directory,
keeping the per-entry node contributions separate. -/
def processAssetsC (env : S3Env) (now : Nat) :
    Cache → List AssetDirectoryEntry → List (List AssetData) × Cache
  | cache, [] => ([], cache)
  | cache, a :: rest =>
      let first := processAsset env now cache a
      let restOut := processAssetsC env now first.2 rest
      (first.1 :: restOut.1, restOut.2)

/-- The node accumulation of S3Service.getGraphData: the concatenation of the
per-entry contributions. -/
def processAssets (env : S3Env) (now : Nat) (cache : Cache) (dir : List AssetDirectoryEntry) :
    List AssetData × Cache :=
  let out := processAssetsC env now cache dir
  (out.1.flatten, out.2)

/-- The metadata object that S3Service.getGraphData attaches to the graph;
lastUpdate is the timestamp of the call. -/
structure GraphMeta where
  totalNodes : Nat
  totalLinks : Nat
  assetTypes : List String
  vpcCount : Nat
  lastUpdate : Nat
  frameTypes : List String

/-- The value served by S3Service.getGraphData. -/
structure GraphData where
  nodes : List AssetData
  links : List Link
  metadata : GraphMeta

/-- S3Service.getGraphData: read the directory, accumulate nodes per asset
type with per-type failures skipped, synthesize links and frames, and attach
the graph metadata.  Only a directory read failure escapes. -/
def getGraphData (env : S3Env) (now : Nat) (cache : Cache) :
    Except String GraphData × Cache :=
  match getAssetDirectory env now cache with
  | (Except.error e, c1) => (Except.error e, c1)
  | (Except.ok dir, c1) =>
      let processed := processAssets env now c1 dir
      let linked := createLinks processed.1
      (Except.ok
        { nodes := linked.2,
          links := linked.1,
          metadata :=
            { totalNodes := linked.2.length,
              totalLinks := linked.1.length,
              assetTypes := (linked.2.map (fun n => n.type)).eraseDups,
              vpcCount := (linked.2.filter (fun n => n.type == "VPC")).length,
              lastUpdate := now,
              frameTypes := ["ADMIN_FRAME", "STORAGE_FRAME", "VPC_FRAME"] } },
       processed.2)

/-- An EC2 API operation issued to the cloud compute API, with its
arguments.  The constructors cover every command sent by the two relocation
implementations; TerminateInstancesCommand is imported by the relocation
script but never sent, and is included so that its absence from traces can
be stated. -/
inductive ApiCall where
  | describeInstances (instanceIds : List (Option String))
  | stopInstances (instanceIds : List (Option String))
  | createImage (instanceId : String) (name : String) (description : String) (noReboot : Bool)
  | describeImages (imageIds : List (Option String))
  | describeSubnets (vpcId : String) (availabilityZone : Option String)
  | runInstances (imageId : Option String) (instanceType : Option String)
      (subnetId : Option String) (minCount : Nat) (maxCount : Nat)
      (tags : List (String × String)) (iamInstanceProfileName : Option String)
      (keyName : Option String)
  | terminateInstances (instanceIds : List (Option String))
  | describeAddresses
  | disassociateAddress (associationId : Option String)
  | associateAddress (allocationId : Option String) (instanceId : Option String)
  | describeNetworkInterfaces (vpcId : String) (status : String) (availabilityZone : String)
  | waiterInstanceStopped (instanceIds : List (Option String))
  | detachNetworkInterface (attachmentId : String)
  | attachNetworkInterface (networkInterfaceId : Option String) (instanceId : String) (deviceIndex : Int)
  | startInstances (instanceIds : List (Option String))
deriving DecidableEq

/-- Whether an operation belongs to the elastic-IP handling step. -/
def ApiCall.isElastic : ApiCall → Bool
  | ApiCall.describeAddresses => true
  | ApiCall.disassociateAddress _ => true
  | ApiCall.associateAddress _ _ => true
  | _ => false

/-- Whether an operation is the compensating TerminateInstances command. -/
def ApiCall.isTerminate : ApiCall → Bool
  | ApiCall.terminateInstances _ => true
  | _ => false

/-- Whether an operation is a CreateImage (AMI snapshot) command. -/
def ApiCall.isCreateImage : ApiCall → Bool
  | ApiCall.createImage _ _ _ _ => true
  | _ => false

namespace RelocScript

/-- The fields of a described instance that the relocation script reads. -/
structure Ec2Instance where
  vpcId : Option String
  stateName : Option String
  availabilityZone : Option String
  instanceType : Option String
  iamInstanceProfileArn : Option String
  keyName : Option String
  tags : List (String × String)
deriving DecidableEq

/-- A subnet row of a DescribeSubnets response. -/
structure Ec2Subnet where
  subnetId : Option String
deriving DecidableEq

/-- An instance row of a RunInstances response. -/
structure RunInstanceInfo where
  instanceId : Option String
deriving DecidableEq

/-- An address row of a DescribeAddresses response. -/
structure Ec2Address where
  instanceId : Option String
  associationId : Option String
  allocationId : Option String
  publicIp : Option String
deriving DecidableEq

/-- The compute-API environment of the relocation script.  Every field maps
the position of the call in the issued-call sequence and the call arguments
to the response: a thrown error message, or the fields of the response that
the script reads.  DescribeInstances responses carry
Reservations[0].Instances[0] as an Option, DescribeImages responses carry
Images[0].State, and CreateImage responses carry the ImageId. -/
structure Ec2Env where
  describeInstances : Nat → List (Option String) → Except String (Option Ec2Instance)
  stopInstances : Nat → List (Option String) → Except String Unit
  createImage : Nat → String → Except String (Option String)
  describeImages : Nat → List (Option String) → Except String (Option String)
  describeSubnets : Nat → String → Option String → Except String (List Ec2Subnet)
  runInstances : Nat → ApiCall → Except String (List RunInstanceInfo)
  describeAddresses : Nat → Except String (List Ec2Address)
  disassociateAddress : Nat → Option String → Except String Unit
  associateAddress : Nat → Option String → Option String → Except String Unit

/-- The error outcomes of the relocation script: a rethrown compute-API
error, or one of the errors the script itself throws.  runtimeTypeError
models the TypeError raised when RunInstances returns no instance row. -/
inductive RelocError where
  | aws (message : String)
  | instanceNotFound
  | alreadyInTargetVpc
  | noSubnetsFound
  | runtimeTypeError
deriving DecidableEq

/-- The success value of the relocation script. -/
structure RelocResult where
  success : Bool
  message : String
  newInstanceId : Option String
  imageId : Option String
  originalInstanceId : String
deriving DecidableEq

/-- waitForInstanceState: poll DescribeInstances until
Reservations[0].Instances[0].State.Name equals the target state, sleeping
between polls.  The source loop is unbounded; the embedding is fuelled and
returns none when the fuel runs out before the target state is observed.
Each poll appends its call to the trace, and a thrown describe error
propagates with the trace issued so far. -/
def waitForInstanceState
    (describe : Nat → List (Option String) → Except String (Option Ec2Instance))
    (instanceId : Option String) (targetState : String) :
    Nat → List ApiCall → Option (Except String Unit × List ApiCall)
  | 0, _ => none
  | fuel + 1, tr =>
      let tr2 := tr ++ [ApiCall.describeInstances [instanceId]]
      match describe tr.length [instanceId] with
      | Except.error e => some (Except.error e, tr2)
      | Except.ok inst =>
          if (inst.bind (fun i => i.stateName)) == some targetState then
            some (Except.ok (), tr2)
          else
            waitForInstanceState describe instanceId targetState fuel tr2

/-- waitForImageAvailable: poll DescribeImages until Images[0].State is
available, with the same fuelled embedding as waitForInstanceState. -/
def waitForImageAvailable
    (describe : Nat → List (Option String) → Except String (Option String))
    (imageId : Option String) :
    Nat → List ApiCall → Option (Except String Unit × List ApiCall)
  | 0, _ => none
  | fuel + 1, tr =>
      let tr2 := tr ++ [ApiCall.describeImages [imageId]]
      match describe tr.length [imageId] with
      | Except.error e => some (Except.error e, tr2)
      | Except.ok state =>
          if state == some "available" then
            some (Except.ok (), tr2)
          else
            waitForImageAvailable describe imageId fuel tr2

/-- handleElasticIP: list all elastic IPs, and if one is associated with the
original instance, disassociate it and associate it with the new instance.
The whole body is wrapped in a catch that swallows any error, so the
function never fails; it only extends the trace of issued operations. -/
def handleElasticIP
    (describeAddresses : Nat → Except String (List Ec2Address))
    (disassociate : Nat → Option String → Except String Unit)
    (associate : Nat → Option String → Option String → Except String Unit)
    (instanceId : String) (newInstanceId : Option String)
    (tr : List ApiCall) : List ApiCall :=
  let tr1 := tr ++ [ApiCall.describeAddresses]
  match describeAddresses tr.length with
  | Except.error _ => tr1
  | Except.ok addresses =>
      match addresses.find? (fun a => a.instanceId == some instanceId) with
      | none => tr1
      | some elasticIP =>
          let tr2 := tr1 ++ [ApiCall.disassociateAddress elasticIP.associationId]
          match disassociate tr1.length elasticIP.associationId with
          | Except.error _ => tr2
          | Except.ok _ =>
              let tr3 := tr2 ++ [ApiCall.associateAddress elasticIP.allocationId newInstanceId]
              match associate tr2.length elasticIP.allocationId newInstanceId with
              | Except.error _ => tr3
              | Except.ok _ => tr3

/-- The AMI name built by the script: it interpolates the instance id and
Date.now(). -/
def amiName (instanceId : String) (now : Nat) : String :=
  "relocation-ami-" ++ instanceId ++ "-" ++ toString now

/-- The AMI description built by the script. -/
def amiDescription (instanceId : String) : String :=
  "AMI created for instance " ++ instanceId ++ " relocation"

/-- The RunInstances command assembled by the script: the created AMI, the
original instance type and tags, the found subnet, MinCount and MaxCount 1,
and the IAM-profile name (the last ARN segment) and key pair of the original
instance when they are truthy. -/
def mkRunInstancesCall (imageId : Option String) (inst : Ec2Instance)
    (subnetId : Option String) : ApiCall :=
  ApiCall.runInstances imageId inst.instanceType subnetId 1 1 inst.tags
    (match inst.iamInstanceProfileArn with
     | some arn => if arn == "" then none else some ((jsSplit arn '/').getLastD "")
     | none => none)
    (match inst.keyName with
     | some k => if k == "" then none else some k
     | none => none)

/-- The success payload of the relocation script before the elastic-IP step:
the created image id and the launched instance id. -/
structure PreOk where
  imageId : Option String
  newInstanceId : Option String
deriving DecidableEq

/-- The relocation script up to and including the wait for the replacement
instance to run: describe the instance, reject a missing instance or one
already in the target VPC, stop it and wait, create an AMI and wait, find a
subnet of the destination VPC in the instance availability zone, launch the
replacement there and wait.  Every compute call appends itself to the trace
before its response is examined, and every failure aborts immediately with
the trace issued so far. -/
def relocateMain (env : Ec2Env) (now : Nat) (fuel : Nat)
    (instanceId destinationVpcId : String) :
    Option (Except RelocError PreOk × List ApiCall) :=
  let tr0 : List ApiCall := [ApiCall.describeInstances [some instanceId]]
  match env.describeInstances 0 [some instanceId] with
  | Except.error e => some (Except.error (RelocError.aws e), tr0)
  | Except.ok none => some (Except.error RelocError.instanceNotFound, tr0)
  | Except.ok (some inst) =>
      if inst.vpcId == some destinationVpcId then
        some (Except.error RelocError.alreadyInTargetVpc, tr0)
      else
        let tr1 := tr0 ++ [ApiCall.stopInstances [some instanceId]]
        match env.stopInstances tr0.length [some instanceId] with
        | Except.error e => some (Except.error (RelocError.aws e), tr1)
        | Except.ok _ =>
            match waitForInstanceState env.describeInstances (some instanceId) "stopped" fuel tr1 with
            | none => none
            | some (Except.error e, tr2) => some (Except.error (RelocError.aws e), tr2)
            | some (Except.ok _, tr2) =>
                let tr3 := tr2 ++ [ApiCall.createImage instanceId (amiName instanceId now) (amiDescription instanceId) true]
                match env.createImage tr2.length instanceId with
                | Except.error e => some (Except.error (RelocError.aws e), tr3)
                | Except.ok imageId =>
                    match waitForImageAvailable env.describeImages imageId fuel tr3 with
                    | none => none
                    | some (Except.error e, tr4) => some (Except.error (RelocError.aws e), tr4)
                    | some (Except.ok _, tr4) =>
                        let tr5 := tr4 ++ [ApiCall.describeSubnets destinationVpcId inst.availabilityZone]
                        match env.describeSubnets tr4.length destinationVpcId inst.availabilityZone with
                        | Except.error e => some (Except.error (RelocError.aws e), tr5)
                        | Except.ok subnets =>
                            match subnets.head? with
                            | none => some (Except.error RelocError.noSubnetsFound, tr5)
                            | some subnet0 =>
                                let runCall := mkRunInstancesCall imageId inst subnet0.subnetId
                                let tr6 := tr5 ++ [runCall]
                                match env.runInstances tr5.length runCall with
                                | Except.error e => some (Except.error (RelocError.aws e), tr6)
                                | Except.ok insts =>
                                    match insts.head? with
                                    | none => some (Except.error RelocError.runtimeTypeError, tr6)
                                    | some inst0 =>
                                        match waitForInstanceState env.describeInstances inst0.instanceId "running" fuel tr6 with
                                        | none => none
                                        | some (Except.error e, tr7) => some (Except.error (RelocError.aws e), tr7)
                                        | some (Except.ok _, tr7) =>
                                            some (Except.ok { imageId := imageId, newInstanceId := inst0.instanceId }, tr7)

/-- relocateEC2BetweenVPCs of the standalone relocation script: the main
sequence followed by the non-fatal elastic-IP reassignment and the success
payload.  Failures of the main sequence are rethrown unchanged. -/
def relocateEC2BetweenVPCs (env : Ec2Env) (now : Nat) (fuel : Nat)
    (instanceId destinationVpcId : String) :
    Option (Except RelocError RelocResult × List ApiCall) :=
  match relocateMain env now fuel instanceId destinationVpcId with
  | none => none
  | some (Except.error e, tr) => some (Except.error e, tr)
  | some (Except.ok pre, tr) =>
      some (Except.ok
        { success := true,
          message := "Successfully relocated instance " ++ instanceId ++ " to VPC " ++ destinationVpcId,
          newInstanceId := pre.newInstanceId,
          imageId := pre.imageId,
          originalInstanceId := instanceId },
       handleElasticIP env.describeAddresses env.disassociateAddress env.associateAddress
         instanceId pre.newInstanceId tr)

end RelocScript

namespace EnvAction

/-- The Attachment object of a network interface of a described instance. -/
structure NIAttachment where
  deviceIndex : Option Int
  attachmentId : Option String
deriving DecidableEq

/-- A network interface of a described instance. -/
structure InstanceNI where
  attachment : Option NIAttachment
  availabilityZone : Option String
deriving DecidableEq

/-- The fields of a described instance that EnvAction reads. -/
structure InstanceInfo where
  networkInterfaces : Option (List InstanceNI)
deriving DecidableEq

/-- A row of a DescribeNetworkInterfaces response. -/
structure AvailableNI where
  networkInterfaceId : Option String
deriving DecidableEq

/-- The compute-API environment of EnvAction.relocateEC2BetweenVPCs.
DescribeNetworkInterfaces is filtered by vpc-id, status available and
availability-zone; its NetworkInterfaces field may be absent. -/
structure Api where
  describeInstances : Nat → List String → Except String (Option InstanceInfo)
  describeNetworkInterfaces : Nat → String → String → Except String (Option (List AvailableNI))
  stopInstances : Nat → List String → Except String Unit
  waitInstanceStopped : Nat → List String → Except String Unit
  detachNetworkInterface : Nat → String → Except String Unit
  attachNetworkInterface : Nat → Option String → String → Int → Except String Unit
  startInstances : Nat → List String → Except String Unit

/-- The result value of EnvAction.relocateEC2BetweenVPCs. -/
structure RelocateEC2Result where
  success : Bool
  message : String
  newNetworkInterfaceId : Option String
deriving DecidableEq

/-- EnvAction.relocateEC2BetweenVPCs
(src/backend/src/services/EnvAction.ts): describe the instance, find its
primary network interface (Attachment.DeviceIndex === 0), look for an
available network interface of the destination VPC in the same availability
zone, stop the instance and wait via the SDK waiter, detach the primary
interface, attach the found one at device index 0, and start the instance.
Every error is rethrown.  No image, subnet, address or terminate operation
is ever issued. -/
def relocateEC2BetweenVPCs (api : Api) (instanceId destinationVpcId : String) :
    Except String RelocateEC2Result × List ApiCall :=
  let tr0 : List ApiCall := [ApiCall.describeInstances [some instanceId]]
  match api.describeInstances 0 [instanceId] with
  | Except.error e => (Except.error e, tr0)
  | Except.ok none => (Except.error ("Instance " ++ instanceId ++ " not found"), tr0)
  | Except.ok (some currentInstance) =>
      let primaryNI : Option InstanceNI :=
        match currentInstance.networkInterfaces with
        | none => none
        | some nis => nis.find? (fun ni => (ni.attachment.bind (fun a => a.deviceIndex)) == some 0)
      match primaryNI with
      | none => (Except.error "No primary network interface found", tr0)
      | some primary =>
          match primary.availabilityZone with
          | none => (Except.error "No availability zone found for primary network interface", tr0)
          | some sourceAZ =>
              if sourceAZ == "" then
                (Except.error "No availability zone found for primary network interface", tr0)
              else
                let tr1 := tr0 ++ [ApiCall.describeNetworkInterfaces destinationVpcId "available" sourceAZ]
                match api.describeNetworkInterfaces tr0.length destinationVpcId sourceAZ with
                | Except.error e => (Except.error e, tr1)
                | Except.ok availableNIs =>
                    match availableNIs with
                    | none =>
                        (Except.error ("No available network interfaces found in VPC " ++
                          destinationVpcId ++ " in AZ " ++ sourceAZ), tr1)
                    | some [] =>
                        (Except.error ("No available network interfaces found in VPC " ++
                          destinationVpcId ++ " in AZ " ++ sourceAZ), tr1)
                    | some (ni0 :: _) =>
                        let tr2 := tr1 ++ [ApiCall.stopInstances [some instanceId]]
                        match api.stopInstances tr1.length [instanceId] with
                        | Except.error e => (Except.error e, tr2)
                        | Except.ok _ =>
                            let tr3 := tr2 ++ [ApiCall.waiterInstanceStopped [some instanceId]]
                            match api.waitInstanceStopped tr2.length [instanceId] with
                            | Except.error e => (Except.error e, tr3)
                            | Except.ok _ =>
                                match primary.attachment.bind (fun a => a.attachmentId) with
                                | none => (Except.error "No attachment ID found for primary network interface", tr3)
                                | some attachmentId =>
                                    if attachmentId == "" then
                                      (Except.error "No attachment ID found for primary network interface", tr3)
                                    else
                                      let tr4 := tr3 ++ [ApiCall.detachNetworkInterface attachmentId]
                                      match api.detachNetworkInterface tr3.length attachmentId with
                                      | Except.error e => (Except.error e, tr4)
                                      | Except.ok _ =>
                                          let tr5 := tr4 ++ [ApiCall.attachNetworkInterface ni0.networkInterfaceId instanceId 0]
                                          match api.attachNetworkInterface tr4.length ni0.networkInterfaceId instanceId 0 with
                                          | Except.error e => (Except.error e, tr5)
                                          | Except.ok _ =>
                                              let tr6 := tr5 ++ [ApiCall.startInstances [some instanceId]]
                                              match api.startInstances tr5.length [instanceId] with
                                              | Except.error e => (Except.error e, tr6)
                                              | Except.ok _ =>
                                                  (Except.ok
                                                    { success := true,
                                                      message := "Successfully relocated instance " ++ instanceId ++
                                                        " to VPC " ++ destinationVpcId,
                                                      newNetworkInterfaceId := ni0.networkInterfaceId }, tr6)

end EnvAction

/-- The JSON body shapes produced by the backend REST handlers
(src/backend/src/index.ts): the graph object, the error object with exactly
the fields error and details, the refresh object with message and data, the
fortifai object with success, message and data, and the ignore object with
success, message and the boolean data field. -/
inductive Resp where
  | graphJson (g : GraphData)
  | errorJson (error : String) (details : String)
  | refreshJson (message : String) (data : GraphData)
  | fortifaiJson (success : Bool) (message : String) (data : EnvAction.RelocateEC2Result)
  | ignoreJson (success : Bool) (message : String) (data : Bool)

/-- An HTTP response of the backend: the status code and the JSON body. -/
structure HttpResponse where
  status : Nat
  body : Resp

/-- The shared body of the six graph routes: serve the current result of
S3Service.getGraphData as a 200 JSON response, or the per-route error
message and the thrown error as a 500 error body. -/
def serveGraphData (errMsg : String) (env : S3Env) (now : Nat) (cache : Cache) :
    HttpResponse × Cache :=
  match getGraphData env now cache with
  | (Except.ok g, c2) => ({ status := 200, body := Resp.graphJson g }, c2)
  | (Except.error e, c2) => ({ status := 500, body := Resp.errorJson errMsg e }, c2)

/-- GET /api/graph. -/
def handleGetGraph (env : S3Env) (now : Nat) (cache : Cache) : HttpResponse × Cache :=
  serveGraphData "Failed to fetch graph data" env now cache

/-- PUT /api/graph: ignores the request body and serves getGraphData. -/
def handlePutGraph (env : S3Env) (now : Nat) (cache : Cache) (reqBody : Option JsVal) :
    HttpResponse × Cache :=
  serveGraphData "Failed to update graph data" env now cache

/-- POST /api/graph/nodes: ignores the request body and serves getGraphData. -/
def handlePostGraphNodes (env : S3Env) (now : Nat) (cache : Cache) (reqBody : Option JsVal) :
    HttpResponse × Cache :=
  serveGraphData "Failed to add node" env now cache

/-- POST /api/graph/links: ignores the request body and serves getGraphData. -/
def handlePostGraphLinks (env : S3Env) (now : Nat) (cache : Cache) (reqBody : Option JsVal) :
    HttpResponse × Cache :=
  serveGraphData "Failed to add link" env now cache

/-- DELETE /api/graph/nodes/:nodeId: ignores the path parameter and serves
getGraphData. -/
def handleDeleteGraphNode (env : S3Env) (now : Nat) (cache : Cache) (nodeId : String) :
    HttpResponse × Cache :=
  serveGraphData "Failed to remove node" env now cache

/-- DELETE /api/graph/links: serves getGraphData. -/
def handleDeleteGraphLinks (env : S3Env) (now : Nat) (cache : Cache) :
    HttpResponse × Cache :=
  serveGraphData "Failed to remove link" env now cache

/-- POST /api/graph/refresh: clear the cache, then serve getGraphData with
the refresh message. -/
def handleRefreshGraph (env : S3Env) (now : Nat) (cache : Cache) :
    HttpResponse × Cache :=
  match getGraphData env now [] with
  | (Except.ok g, c2) =>
      ({ status := 200, body := Resp.refreshJson "Cache cleared and data refreshed" g }, c2)
  | (Except.error e, c2) =>
      ({ status := 500, body := Resp.errorJson "Failed to refresh graph data" e }, c2)

/-- The fixed destination VPC of the POST /api/fortifai route. -/
def fortifaiDestinationVpcId : String := "vpc-01e8afe5e74576696"

/-- POST /api/fortifai: a falsy instanceId in the body is rejected with 400;
otherwise the handler awaits EnvAction.relocateEC2BetweenVPCs (whose outcome
is the reloc argument) and serves its result as 200 or its error as 500. -/
def handleFortifai (reloc : Except String EnvAction.RelocateEC2Result)
    (instanceId : Option JsVal) : HttpResponse :=
  if jsTruthyO instanceId = false then
    { status := 400,
      body := Resp.errorJson "Instance ID is required"
        "Please provide an instanceId in the request body" }
  else
    match reloc with
    | Except.ok r => { status := 200, body := Resp.fortifaiJson true r.message r }
    | Except.error e =>
        { status := 500, body := Resp.errorJson "Failed to process FortifAI action" e }

/-- The response of POST /api/fortifai/ignore: 400 when instanceId is falsy
or ignore is not a boolean; otherwise 200 with success true, the
ignored/unignored message, and the constant false data field (the update
call to the store is commented out in the source). -/
def ignoreResponse (instanceId ignore : Option JsVal) : HttpResponse :=
  match ignore, jsTruthyO instanceId with
  | some (JsVal.bool b), true =>
      { status := 200,
        body := Resp.ignoreJson true
          ("Instance " ++ jsTemplate instanceId ++ " " ++
            (if b then "ignored" else "unignored") ++ " successfully") false }
  | _, _ =>
      { status := 400,
        body := Resp.errorJson "Invalid parameters"
          "Please provide instanceId and ignore (boolean) in the request body" }

/-- POST /api/fortifai/ignore as a state transformer over the backend
process state (the cache is the only process-wide state): the handler never
touches the service state. -/
def handleFortifaiIgnore (cache : Cache) (instanceId ignore : Option JsVal) :
    HttpResponse × Cache :=
  (ignoreResponse instanceId ignore, cache)

/-- A request reaching the API gateway through the proxy. -/
structure GwRequest where
  url : String
  method : String
  authorization : Option String
  body : Option JsVal

/-- A gateway response as observed by the proxy: the status, the
content-type header, the outcome of parsing the body as JSON, and the body
text. -/
structure GwResponse where
  status : Nat
  contentType : Option String
  jsonResult : Except String JsVal
  textResult : String

/-- The body shapes of a proxy response: relayed JSON, relayed text, and the
three fixed JSON objects of the handler (the invalid-path error object, the
development token object with access_token development_token and token_type
bearer, and the proxy-failure error object). -/
inductive ProxyBody where
  | jsonBody (v : JsVal)
  | textBody (s : String)
  | invalidPathBody
  | tokenBody
  | proxyErrorBody

/-- A response of the proxy handler. -/
structure ProxyOut where
  status : Nat
  body : ProxyBody

/-- Whether a content-type header includes application/json. -/
def contentTypeIncludesJson : Option String → Bool
  | none => false
  | some s => (s.splitOn "application/json").length > 1

/-- The Next.js catch-all proxy handler
(src/src/pages/api/proxy/[...path].ts).  A missing or non-array path query
is rejected with 400.  The joined path token is short-circuited with the
fixed development token.  Every other path is split into service name and
service path, forwarded to the gateway under the /api/v1/ prefix with the
original method, JSON body (for non-GET methods) and authorization header,
and the gateway status and body are relayed (JSON when the content type
includes application/json, text otherwise); any fetch or parse failure
yields a 500 proxy-failure body.  The second component is the request sent
to the gateway, or none when the gateway was not contacted. -/
def proxyHandler (apiGatewayUrl : String) (gw : GwRequest → Except String GwResponse)
    (method : String) (authorization : Option String) (reqBody : Option JsVal)
    (path : Option (List String)) : ProxyOut × Option GwRequest :=
  match path with
  | none => ({ status := 400, body := ProxyBody.invalidPathBody }, none)
  | some ps =>
      let apiPath := String.intercalate "/" ps
      if apiPath == "token" then
        ({ status := 200, body := ProxyBody.tokenBody }, none)
      else
        let pathParts := jsSplit apiPath '/'
        let serviceName := pathParts.headD ""
        let servicePath := String.intercalate "/" (pathParts.drop 1)
        let targetUrl := apiGatewayUrl ++ "/api/v1/" ++ serviceName ++ "/" ++ servicePath
        let gwReq : GwRequest :=
          { url := targetUrl, method := method, authorization := authorization,
            body := if method == "GET" then none else reqBody }
        match gw gwReq with
        | Except.error _ => ({ status := 500, body := ProxyBody.proxyErrorBody }, some gwReq)
        | Except.ok r =>
            if contentTypeIncludesJson r.contentType then
              match r.jsonResult with
              | Except.ok v => ({ status := r.status, body := ProxyBody.jsonBody v }, some gwReq)
              | Except.error _ => ({ status := 500, body := ProxyBody.proxyErrorBody }, some gwReq)
            else
              ({ status := r.status, body := ProxyBody.textBody r.textResult }, some gwReq)


lemma cacheGet_set_self (c : Cache) (k : String) (e : CacheEntry) :
    cacheGet (cacheSet c k e) k = some e := by
  induction c with
  | nil => simp [cacheSet, cacheGet, List.find?]
  | cons p rest ih =>
      by_cases hp : (p.1 == k) = true
      · simp [cacheSet, hp, cacheGet, List.find?]
      · simp only [cacheSet, hp, if_false, Bool.false_eq_true]
        simp only [cacheGet, List.find?] at ih ⊢
        simp [hp, ih]

lemma cacheGet_set_other (c : Cache) (k j : String) (e : CacheEntry) (h : ¬ j = k) :
    cacheGet (cacheSet c k e) j = cacheGet c j := by
  have hkj : (k == j) = false := by
    simp only [beq_eq_false_iff_ne, ne_eq]
    intro hq
    exact h hq.symm
  induction c with
  | nil => simp [cacheSet, cacheGet, List.find?, hkj]
  | cons p rest ih =>
      by_cases hp : (p.1 == k) = true
      · have hpj : (p.1 == j) = false := by
          have hpk : p.1 = k := beq_iff_eq.mp hp
          rw [hpk]; exact hkj
        simp [cacheSet, hp, cacheGet, List.find?, hkj, hpj]
      · simp only [cacheSet, hp, if_false, Bool.false_eq_true]
        by_cases hpj : (p.1 == j) = true
        · simp [cacheGet, List.find?, hpj]
        · simp only [cacheGet, List.find?] at ih ⊢
          simp [hpj, ih]

lemma fetchParquet_fetched (env : S3Env) (now : Nat) (cache : Cache) (key : String) :
    (fetchParquet env now cache key).2.2 = true := by
  unfold fetchParquet
  cases env key <;> rfl

/-- Inversion of a readParquetFile call that actually fetched and succeeded:
the records came from the environment and were cached with timestamp now. -/
lemma readParquetFile_fetched_ok (env : S3Env) (now : Nat) (cache : Cache) (key : String)
    (d : List Record) (c2 : Cache)
    (h : readParquetFile env now cache key = (Except.ok d, c2, true)) :
    env key = Except.ok d ∧ c2 = cacheSet cache key { data := d, timestamp := now } := by
  have hfetch : ∀ hf : fetchParquet env now cache key = (Except.ok d, c2, true),
      env key = Except.ok d ∧ c2 = cacheSet cache key { data := d, timestamp := now } := by
    intro hf
    unfold fetchParquet at hf
    cases henv : env key with
    | error e => rw [henv] at hf; simp at hf
    | ok records =>
        rw [henv] at hf
        simp only [Prod.mk.injEq, Except.ok.injEq] at hf
        obtain ⟨hd, hc, -⟩ := hf
        subst hd
        exact ⟨rfl, hc.symm⟩
  unfold readParquetFile at h
  split at h
  · split at h
    · simp at h
    · exact hfetch h
  · exact hfetch h

/-- C2: the claim as stated is false on the code.  The cache freshness
window is measured from the timestamp stored with the cached entry, not
from the time of the first call: with an entry stored at time 0, a call at
t1 = 9999 is served from the cache, and a second call at t2 = 10000 - only
one millisecond later, with no clearing in between - is considered stale
and re-fetches, returning the freshly fetched records instead of the cached
records returned by the first call. -/
theorem c2_counterexample_ttl_not_anchored_at_first_call :
    (10000 - 9999 < 10000)
    ∧ readParquetFile (fun _ => Except.ok [[("F", JsVal.str "new")]]) 9999
        [("k", { data := [[("F", JsVal.str "old")]], timestamp := 0 })] "k"
      = (Except.ok [[("F", JsVal.str "old")]],
         [("k", { data := [[("F", JsVal.str "old")]], timestamp := 0 })], false)
    ∧ readParquetFile (fun _ => Except.ok [[("F", JsVal.str "new")]]) 10000
        [("k", { data := [[("F", JsVal.str "old")]], timestamp := 0 })] "k"
      = (Except.ok [[("F", JsVal.str "new")]],
         [("k", { data := [[("F", JsVal.str "new")]], timestamp := 10000 })], true) := by
  refine ⟨by decide, rfl, rfl⟩

/-- C2 amended: when the first call actually fetches the file (it finds no
valid cache entry) and succeeds, the claim holds: a second call for the
same key within 10000 milliseconds of the first, with no clearing in
between, is served from the cache without fetching and returns the records
of the first call; a second call 10000 milliseconds or more after the first
finds the entry stale and fetches again.  In general the freshness window
is anchored at the timestamp stored with the cached entry. -/
theorem c2_cache_ttl_amended (env1 env2 : S3Env) (cache : Cache) (key : String)
    (t1 t2 : Nat) (d : List Record) (c1 : Cache)
    (h1 : readParquetFile env1 t1 cache key = (Except.ok d, c1, true)) :
    (t2 - t1 < CACHE_TTL → readParquetFile env2 t2 c1 key = (Except.ok d, c1, false))
    ∧ (CACHE_TTL ≤ t2 - t1 → (readParquetFile env2 t2 c1 key).2.2 = true) := by
  obtain ⟨henv, hc⟩ := readParquetFile_fetched_ok env1 t1 cache key d c1 h1
  have hget : cacheGet c1 key = some { data := d, timestamp := t1 } := by
    rw [hc]; exact cacheGet_set_self cache key _
  constructor
  · intro hlt
    unfold readParquetFile
    rw [hget]
    have hlt2 : t2 - t1 < 10000 := by simpa [CACHE_TTL] using hlt
    have hv : isCacheValid t2 (some { data := d, timestamp := t1 }) = true := by
      simp [isCacheValid, CACHE_TTL]
      omega
    simp only [hv, if_true]
  · intro hge
    unfold readParquetFile
    rw [hget]
    have hge2 : 10000 ≤ t2 - t1 := by simpa [CACHE_TTL] using hge
    have hv : isCacheValid t2 (some { data := d, timestamp := t1 }) = false := by
      simp [isCacheValid, CACHE_TTL]
      omega
    simp only [hv, Bool.false_eq_true, if_false]
    exact fetchParquet_fetched env2 t2 c1 key

theorem c2_cache_ttl_amended_witness :
    readParquetFile (fun _ => Except.ok [[("F", JsVal.str "v")]]) 0 [] "k"
      = (Except.ok [[("F", JsVal.str "v")]],
         [("k", { data := [[("F", JsVal.str "v")]], timestamp := 0 })], true)
    ∧ ((5 - 0 < CACHE_TTL →
          readParquetFile (fun _ => Except.ok [[("F", JsVal.str "v")]]) 5
            [("k", { data := [[("F", JsVal.str "v")]], timestamp := 0 })] "k"
          = (Except.ok [[("F", JsVal.str "v")]],
             [("k", { data := [[("F", JsVal.str "v")]], timestamp := 0 })], false))
       ∧ (CACHE_TTL ≤ 5 - 0 →
          (readParquetFile (fun _ => Except.ok [[("F", JsVal.str "v")]]) 5
            [("k", { data := [[("F", JsVal.str "v")]], timestamp := 0 })] "k").2.2 = true)) :=
  ⟨rfl, c2_cache_ttl_amended (fun _ => Except.ok [[("F", JsVal.str "v")]])
    (fun _ => Except.ok [[("F", JsVal.str "v")]]) [] "k" 0 5
    [[("F", JsVal.str "v")]] [("k", { data := [[("F", JsVal.str "v")]], timestamp := 0 })] rfl⟩

/-- C6: the status codes and bodies of the backend REST routes.  Every
graph route (quantified by its error message m, covering GET, PUT, POST
nodes, POST links, DELETE node and DELETE links) answers a handler failure
with status 500 and a body holding exactly the fields error and details,
and a success with status 200 and the graph JSON; the refresh route does
the same with its message/data body; POST /api/fortifai without an
instanceId answers 400 with an error/details body, relays a successful
relocation as 200 and a failure as 500 with an error/details body; and
POST /api/fortifai/ignore answers 400 with an error/details body when the
instanceId is missing or the ignore flag is not a boolean, and 200 with a
JSON body otherwise. -/
theorem c6_rest_status_codes_and_error_bodies :
    (∀ (m : String) (env : S3Env) (now : Nat) (cache : Cache) (e : String) (c2 : Cache),
        getGraphData env now cache = (Except.error e, c2) →
        (serveGraphData m env now cache).1.status = 500
        ∧ (serveGraphData m env now cache).1.body = Resp.errorJson m e)
    ∧ (∀ (m : String) (env : S3Env) (now : Nat) (cache : Cache) (g : GraphData) (c2 : Cache),
        getGraphData env now cache = (Except.ok g, c2) →
        (serveGraphData m env now cache).1 = { status := 200, body := Resp.graphJson g })
    ∧ (∀ (env : S3Env) (now : Nat) (cache : Cache) (e : String) (c2 : Cache),
        getGraphData env now [] = (Except.error e, c2) →
        (handleRefreshGraph env now cache).1.status = 500
        ∧ (handleRefreshGraph env now cache).1.body = Resp.errorJson "Failed to refresh graph data" e)
    ∧ (∀ (env : S3Env) (now : Nat) (cache : Cache) (g : GraphData) (c2 : Cache),
        getGraphData env now [] = (Except.ok g, c2) →
        (handleRefreshGraph env now cache).1
          = { status := 200, body := Resp.refreshJson "Cache cleared and data refreshed" g })
    ∧ (∀ reloc : Except String EnvAction.RelocateEC2Result,
        (handleFortifai reloc none).status = 400
        ∧ (handleFortifai reloc none).body
            = Resp.errorJson "Instance ID is required" "Please provide an instanceId in the request body")
    ∧ (∀ (i : Option JsVal) (r : EnvAction.RelocateEC2Result), jsTruthyO i = true →
        handleFortifai (Except.ok r) i = { status := 200, body := Resp.fortifaiJson true r.message r })
    ∧ (∀ (i : Option JsVal) (e : String), jsTruthyO i = true →
        (handleFortifai (Except.error e) i).status = 500
        ∧ (handleFortifai (Except.error e) i).body = Resp.errorJson "Failed to process FortifAI action" e)
    ∧ (∀ (i g : Option JsVal), (∀ b : Bool, ¬ g = some (JsVal.bool b)) →
        (ignoreResponse i g).status = 400
        ∧ (ignoreResponse i g).body
            = Resp.errorJson "Invalid parameters" "Please provide instanceId and ignore (boolean) in the request body")
    ∧ (∀ g : Option JsVal,
        (ignoreResponse none g).status = 400)
    ∧ (∀ (i : Option JsVal) (b : Bool), jsTruthyO i = true →
        (ignoreResponse i (some (JsVal.bool b))).status = 200) := by
  refine ⟨?_, ?_, ?_, ?_, ?_, ?_, ?_, ?_, ?_, ?_⟩
  · intro m env now cache e c2 h
    unfold serveGraphData
    rw [h]
    exact ⟨rfl, rfl⟩
  · intro m env now cache g c2 h
    unfold serveGraphData
    rw [h]
  · intro env now cache e c2 h
    unfold handleRefreshGraph
    rw [h]
    exact ⟨rfl, rfl⟩
  · intro env now cache g c2 h
    unfold handleRefreshGraph
    rw [h]
  · intro reloc
    unfold handleFortifai
    simp [jsTruthyO]
  · intro i r hi
    unfold handleFortifai
    rw [hi]
    simp
  · intro i e hi
    unfold handleFortifai
    rw [hi]
    simp
  · intro i g hg
    unfold ignoreResponse
    cases g with
    | none => cases jsTruthyO i <;> simp
    | some v =>
        cases v with
        | str s => cases jsTruthyO (some (JsVal.str s)) <;> simp
        | num n => cases jsTruthyO (some (JsVal.num n)) <;> simp
        | bool b => exact absurd rfl (hg b)
        | arr xs => cases jsTruthyO (some (JsVal.arr xs)) <;> simp
  · intro g
    unfold ignoreResponse
    cases g with
    | none => simp [jsTruthyO]
    | some v => cases v <;> simp [jsTruthyO]
  · intro i b hi
    unfold ignoreResponse
    rw [hi]

theorem c6_rest_status_codes_and_error_bodies_witness :
    jsTruthyO (some (JsVal.str "i-1")) = true
    ∧ handleFortifai (Except.ok { success := true, message := "m", newNetworkInterfaceId := none })
        (some (JsVal.str "i-1"))
      = { status := 200,
          body := Resp.fortifaiJson true "m"
            { success := true, message := "m", newNetworkInterfaceId := none } }
    ∧ (ignoreResponse (some (JsVal.str "i-1")) (some (JsVal.str "x"))).status = 400 := by
  refine ⟨rfl, ?_, ?_⟩
  · exact c6_rest_status_codes_and_error_bodies.2.2.2.2.2.1 (some (JsVal.str "i-1"))
      { success := true, message := "m", newNetworkInterfaceId := none } rfl
  · exact (c6_rest_status_codes_and_error_bodies.2.2.2.2.2.2.2.1 (some (JsVal.str "i-1"))
      (some (JsVal.str "x")) (fun b hb => JsVal.noConfusion (Option.some.inj hb))).1

/-- C9: a POST /api/fortifai/ignore request with a truthy instanceId and a
boolean ignore flag is answered with success true and a message saying the
instance was ignored or unignored, while the data field is the constant
false and the backend state is left untouched: the store update call is
absent from the handler, so no ignore status changes.  The response is also
independent of the backend state. -/
theorem c9_ignore_route_writes_nothing :
    ∀ (cache : Cache) (i : Option JsVal) (b : Bool),
      handleFortifaiIgnore cache i (some (JsVal.bool b))
        = (if jsTruthyO i then
             { status := 200,
               body := Resp.ignoreJson true
                 ("Instance " ++ jsTemplate i ++ " " ++
                   (if b then "ignored" else "unignored") ++ " successfully") false }
           else
             { status := 400,
               body := Resp.errorJson "Invalid parameters"
                 "Please provide instanceId and ignore (boolean) in the request body" },
           cache)
      ∧ (handleFortifaiIgnore cache i (some (JsVal.bool b))).2 = cache
      ∧ (∀ cache2 : Cache,
          (handleFortifaiIgnore cache i (some (JsVal.bool b))).1
            = (handleFortifaiIgnore cache2 i (some (JsVal.bool b))).1) := by
  intro cache i b
  refine ⟨?_, rfl, fun cache2 => rfl⟩
  unfold handleFortifaiIgnore ignoreResponse
  cases hi : jsTruthyO i <;> simp [hi]

/-- C10: the five graph write routes (POST nodes, POST links, DELETE node,
DELETE links, PUT graph) ignore their request body or path parameter,
answer with exactly what a GET of the graph would answer apart from the
per-route error message, leave the backend state exactly as a plain GET
would leave it, and consequently the asset data observable through a later
GET /api/graph is unchanged by calling them. -/
theorem c10_graph_write_routes_do_not_write :
    ∀ (env : S3Env) (now : Nat) (cache : Cache) (b b2 : Option JsVal) (nid nid2 : String),
      handlePostGraphNodes env now cache b = handlePostGraphNodes env now cache b2
      ∧ handlePostGraphLinks env now cache b = handlePostGraphLinks env now cache b2
      ∧ handlePutGraph env now cache b = handlePutGraph env now cache b2
      ∧ handleDeleteGraphNode env now cache nid = handleDeleteGraphNode env now cache nid2
      ∧ (∀ (g : GraphData) (c2 : Cache), getGraphData env now cache = (Except.ok g, c2) →
          (handlePostGraphNodes env now cache b).1 = { status := 200, body := Resp.graphJson g }
          ∧ (handlePostGraphLinks env now cache b).1 = { status := 200, body := Resp.graphJson g }
          ∧ (handlePutGraph env now cache b).1 = { status := 200, body := Resp.graphJson g }
          ∧ (handleDeleteGraphNode env now cache nid).1 = { status := 200, body := Resp.graphJson g }
          ∧ (handleDeleteGraphLinks env now cache).1 = { status := 200, body := Resp.graphJson g }
          ∧ (handleGetGraph env now cache).1 = { status := 200, body := Resp.graphJson g })
      ∧ (handlePostGraphNodes env now cache b).2 = (handleGetGraph env now cache).2
      ∧ (handlePostGraphLinks env now cache b).2 = (handleGetGraph env now cache).2
      ∧ (handlePutGraph env now cache b).2 = (handleGetGraph env now cache).2
      ∧ (handleDeleteGraphNode env now cache nid).2 = (handleGetGraph env now cache).2
      ∧ (handleDeleteGraphLinks env now cache).2 = (handleGetGraph env now cache).2
      ∧ (∀ now2 : Nat,
          handleGetGraph env now2 (handlePostGraphNodes env now cache b).2
            = handleGetGraph env now2 (handleGetGraph env now cache).2) := by
  intro env now cache b b2 nid nid2
  have hst : ∀ m : String, (serveGraphData m env now cache).2 = (handleGetGraph env now cache).2 := by
    intro m
    unfold handleGetGraph serveGraphData
    cases h : getGraphData env now cache with
    | mk r c2 => cases r <;> rfl
  have hok : ∀ (m : String) (g : GraphData) (c2 : Cache),
      getGraphData env now cache = (Except.ok g, c2) →
      (serveGraphData m env now cache).1 = { status := 200, body := Resp.graphJson g } := by
    intro m g c2 h
    unfold serveGraphData
    rw [h]
  refine ⟨rfl, rfl, rfl, rfl, ?_, hst _, hst _, hst _, hst _, hst _, ?_⟩
  · intro g c2 h
    exact ⟨hok _ g c2 h, hok _ g c2 h, hok _ g c2 h, hok _ g c2 h, hok _ g c2 h, hok _ g c2 h⟩
  · intro now2
    unfold handlePostGraphNodes
    rw [hst "Failed to add node"]

def c10Env : S3Env := fun _ => Except.ok []

def c10Graph : GraphData :=
  { nodes := [adminFrame, storageFrame],
    links := [],
    metadata :=
      { totalNodes := 2, totalLinks := 0,
        assetTypes := ["ADMIN_FRAME", "STORAGE_FRAME"],
        vpcCount := 0, lastUpdate := 7,
        frameTypes := ["ADMIN_FRAME", "STORAGE_FRAME", "VPC_FRAME"] } }

def c10CacheOut : Cache := [("Assets/AssetDirectory.parquet", { data := [], timestamp := 7 })]

theorem c10_graph_write_routes_witness :
    getGraphData c10Env 7 [] = (Except.ok c10Graph, c10CacheOut)
    ∧ (handlePostGraphNodes c10Env 7 [] none).1
        = { status := 200, body := Resp.graphJson c10Graph } :=
  ⟨rfl,
   ((c10_graph_write_routes_do_not_write c10Env 7 [] none none "n" "n").2.2.2.2.1
      c10Graph c10CacheOut rfl).1⟩

/-- The gateway request assembled by the proxy for a given api path: the
target URL prefixes /api/v1/ and splits the path into the service name and
the service path; the JSON body is forwarded for non-GET methods and the
authorization header is relayed. -/
def mkGwRequest (cfg : String) (method : String) (authorization : Option String)
    (reqBody : Option JsVal) (apiPath : String) : GwRequest :=
  { url := cfg ++ "/api/v1/" ++ (jsSplit apiPath '/').headD "" ++ "/" ++
      String.intercalate "/" ((jsSplit apiPath '/').drop 1),
    method := method, authorization := authorization,
    body := if method == "GET" then none else reqBody }

/-- C7: a request whose joined proxied path is exactly token is answered
with status 200 and the fixed development-token body without contacting the
gateway; every request with another non-empty path is forwarded to the
gateway under the /api/v1/(service)/(path) prefix, and the gateway status
and body are relayed (as JSON when the content type includes
application/json and the body parses, as text otherwise). -/
theorem c7_proxy_token_and_forwarding :
    (∀ (cfg : String) (gw : GwRequest → Except String GwResponse) (method : String)
       (auth : Option String) (reqBody : Option JsVal) (ps : List String),
       String.intercalate "/" ps = "token" →
       proxyHandler cfg gw method auth reqBody (some ps)
         = ({ status := 200, body := ProxyBody.tokenBody }, none))
    ∧ (∀ (cfg : String) (gw : GwRequest → Except String GwResponse) (method : String)
       (auth : Option String) (reqBody : Option JsVal) (ps : List String),
        ¬ String.intercalate "/" ps = "token" →
        ¬ String.intercalate "/" ps = "" →
        (proxyHandler cfg gw method auth reqBody (some ps)).2
          = some (mkGwRequest cfg method auth reqBody (String.intercalate "/" ps))
        ∧ (∀ r : GwResponse,
            gw (mkGwRequest cfg method auth reqBody (String.intercalate "/" ps)) = Except.ok r →
            (contentTypeIncludesJson r.contentType = true →
              ∀ v : JsVal, r.jsonResult = Except.ok v →
              (proxyHandler cfg gw method auth reqBody (some ps)).1
                = { status := r.status, body := ProxyBody.jsonBody v })
            ∧ (contentTypeIncludesJson r.contentType = false →
              (proxyHandler cfg gw method auth reqBody (some ps)).1
                = { status := r.status, body := ProxyBody.textBody r.textResult }))) := by
  constructor
  · intro cfg gw method auth reqBody ps h
    unfold proxyHandler
    have he : (String.intercalate "/" ps == "token") = true := by
      simp [h]
    simp only [he, if_true]
  · intro cfg gw method auth reqBody ps htok hne
    have he : (String.intercalate "/" ps == "token") = false := by
      simp [htok]
    have hreq : mkGwRequest cfg method auth reqBody (String.intercalate "/" ps)
        = { url := cfg ++ "/api/v1/" ++ (jsSplit (String.intercalate "/" ps) '/').headD "" ++ "/" ++
              String.intercalate "/" ((jsSplit (String.intercalate "/" ps) '/').drop 1),
            method := method, authorization := auth,
            body := if method == "GET" then none else reqBody } := rfl
    unfold proxyHandler
    simp only [he, Bool.false_eq_true, if_false]
    rw [← hreq]
    constructor
    · cases hgw : gw (mkGwRequest cfg method auth reqBody (String.intercalate "/" ps)) with
      | error e => simp [hgw]
      | ok r =>
          simp only [hgw]
          cases hct : contentTypeIncludesJson r.contentType with
          | false => simp [hct]
          | true =>
              simp only [hct, if_true]
              cases hjs : r.jsonResult <;> simp [hjs]
    · intro r hgw
      simp only [hgw]
      constructor
      · intro hct v hjs
        simp [hct, hjs]
      · intro hct
        simp [hct]

theorem c7_proxy_witness :
    String.intercalate "/" ["token"] = "token"
    ∧ proxyHandler "https://gw" (fun _ => Except.error "down") "GET" none none (some ["token"])
        = ({ status := 200, body := ProxyBody.tokenBody }, none)
    ∧ (proxyHandler "https://gw"
        (fun _ => Except.ok { status := 204, contentType := none,
                              jsonResult := Except.error "not json", textResult := "t" })
        "GET" none none (some ["svc", "a", "b"])).1
      = { status := 204, body := ProxyBody.textBody "t" }
    ∧ (proxyHandler "https://gw"
        (fun _ => Except.ok { status := 204, contentType := none,
                              jsonResult := Except.error "not json", textResult := "t" })
        "GET" none none (some ["svc", "a", "b"])).2
      = some (mkGwRequest "https://gw" "GET" none none "svc/a/b")
    ∧ (mkGwRequest "https://gw" "GET" none none "svc/a/b").url = "https://gw/api/v1/svc/a/b" := by
  refine ⟨rfl, ?_, ?_, ?_, by decide⟩
  · exact c7_proxy_token_and_forwarding.1 "https://gw" (fun _ => Except.error "down")
      "GET" none none ["token"] rfl
  · exact (((c7_proxy_token_and_forwarding.2 "https://gw"
      (fun _ => Except.ok { status := 204, contentType := none,
                            jsonResult := Except.error "not json", textResult := "t" })
      "GET" none none ["svc", "a", "b"] (by decide) (by decide)).2
      { status := 204, contentType := none,
        jsonResult := Except.error "not json", textResult := "t" } rfl).2 rfl)
  · exact (c7_proxy_token_and_forwarding.2 "https://gw"
      (fun _ => Except.ok { status := 204, contentType := none,
                            jsonResult := Except.error "not json", textResult := "t" })
      "GET" none none ["svc", "a", "b"] (by decide) (by decide)).1

/-- The frame id interpolated by createLinks for a VPC node. -/
def vpcFrameIdOf (vpc : AssetData) : Option JsVal :=
  some (JsVal.str ("frame-" ++ jsTemplate vpc.id))

/-- The links pushed by one iteration of the per-VPC loop of createLinks. -/
def vpcSectionLinks (nodes : List AssetData) (vpc : AssetData) : List Link :=
  ({ source := vpc.id, target := vpcFrameIdOf vpc, value := 2 } : Link) ::
  (((nodes.filter (fun n => n.type == "Subnet")).filter
      (fun s => jsStrictEq (objGet s.metadata "VpcId") (objGet vpc.metadata "VpcId"))).map
      (fun s => ({ source := s.id, target := vpcFrameIdOf vpc, value := 1 } : Link))
    ++ ((nodes.filter (fun n => n.type == "SG")).filter
      (fun s => jsStrictEq (objGet s.metadata "VpcId") (objGet vpc.metadata "VpcId"))).map
      (fun s => ({ source := s.id, target := vpcFrameIdOf vpc, value := 1 } : Link))
    ++ ((nodes.filter (fun n => n.type == "NetworkInterface")).filter
      (fun s => jsStrictEq (objGet s.metadata "VpcId") (objGet vpc.metadata "VpcId"))).map
      (fun s => ({ source := s.id, target := vpcFrameIdOf vpc, value := 1 } : Link))
    ++ ((nodes.filter (fun n => n.type == "EC2")).filter
      (fun s => jsStrictEq (objGet s.metadata "VpcId") (objGet vpc.metadata "VpcId"))).map
      (fun s => ({ source := s.id, target := vpcFrameIdOf vpc, value := 1 } : Link)))

/-- The node array after createLinks pushed the synthesized frames. -/
def nodesWithFrames (nodes : List AssetData) : List AssetData :=
  nodes ++ (nodes.filter (fun n => n.type == "VPC")).map mkVpcFrame ++ [adminFrame, storageFrame]

/-- The per-VPC links of createLinks. -/
def vpcLinksOf (nodes : List AssetData) : List Link :=
  ((nodes.filter (fun n => n.type == "VPC")).map (vpcSectionLinks nodes)).flatten

/-- The administrative links of createLinks. -/
def adminLinksOf (nodes : List AssetData) : List Link :=
  ((nodesWithFrames nodes).filter (fun n =>
      n.type == "IAMRole" || n.type == "IAMPolicy" || n.type == "IAMUser")).map
    (fun n => ({ source := n.id, target := adminFrame.id, value := 1 } : Link))

/-- The storage links of createLinks. -/
def storageLinksOf (nodes : List AssetData) : List Link :=
  ((nodesWithFrames nodes).filter (fun n => n.type == "S3")).map
    (fun n => ({ source := n.id, target := storageFrame.id, value := 1 } : Link))

/-- The cross-VPC links of createLinks. -/
def crossVpcLinksOf (nodes : List AssetData) : List Link :=
  (nodes.filter (fun n => n.type == "NetworkInterface")).filterMap (fun ni =>
    match objGet ni.metadata "VpcId" with
    | some v =>
        if jsTruthy v then
          some ({ source := ni.id, target := some (JsVal.str ("frame-" ++ jsToString v)), value := 1 } : Link)
        else none
    | none => none)

/-- createLinks decomposed into its four link sections and its node push. -/
lemma createLinks_eq (nodes : List AssetData) :
    createLinks nodes
      = (vpcLinksOf nodes ++ adminLinksOf nodes ++ storageLinksOf nodes ++ crossVpcLinksOf nodes,
         nodesWithFrames nodes) := rfl

lemma mem_vpcLinksOf (nodes : List AssetData) (vpc : AssetData) (l : Link)
    (hv : vpc ∈ nodes) (ht : vpc.type = "VPC") (hl : l ∈ vpcSectionLinks nodes vpc) :
    l ∈ vpcLinksOf nodes := by
  unfold vpcLinksOf
  rw [List.mem_flatten]
  refine ⟨vpcSectionLinks nodes vpc, List.mem_map_of_mem _ ?_, hl⟩
  exact List.mem_filter.mpr ⟨hv, by simp [ht]⟩

/-- C8: for every input node list, createLinks appends exactly one VPC frame
node per VPC node (with id frame- followed by the VPC node id), exactly one
frame-administrative node and exactly one frame-storage node; every Subnet,
SG and EC2 node whose metadata VpcId is the same string as that of a VPC
node v receives a link to the frame of v; every IAMRole, IAMPolicy and
IAMUser node is linked to the administrative frame; and every S3 node is
linked to the storage frame. -/
theorem c8_createLinks_frames_and_membership_links (nodes : List AssetData) :
    (createLinks nodes).2
      = nodes ++ (nodes.filter (fun n => n.type == "VPC")).map mkVpcFrame ++ [adminFrame, storageFrame]
    ∧ (∀ v : AssetData, (mkVpcFrame v).id = some (JsVal.str ("frame-" ++ jsTemplate v.id)))
    ∧ adminFrame.id = some (JsVal.str "frame-administrative")
    ∧ storageFrame.id = some (JsVal.str "frame-storage")
    ∧ (∀ v ∈ nodes, v.type = "VPC" →
        ∀ m ∈ nodes, (m.type = "Subnet" ∨ m.type = "SG" ∨ m.type = "EC2") →
        ∀ s : String, objGet m.metadata "VpcId" = some (JsVal.str s) →
        objGet v.metadata "VpcId" = some (JsVal.str s) →
        ({ source := m.id, target := some (JsVal.str ("frame-" ++ jsTemplate v.id)), value := 1 } : Link)
          ∈ (createLinks nodes).1)
    ∧ (∀ m ∈ nodes, (m.type = "IAMRole" ∨ m.type = "IAMPolicy" ∨ m.type = "IAMUser") →
        ({ source := m.id, target := adminFrame.id, value := 1 } : Link) ∈ (createLinks nodes).1)
    ∧ (∀ m ∈ nodes, m.type = "S3" →
        ({ source := m.id, target := storageFrame.id, value := 1 } : Link) ∈ (createLinks nodes).1) := by
  refine ⟨rfl, fun v => rfl, rfl, rfl, ?_, ?_, ?_⟩
  · intro v hv hvt m hm hmt s hms hvs
    rw [createLinks_eq]
    have hcond : jsStrictEq (objGet m.metadata "VpcId") (objGet v.metadata "VpcId") = true := by
      rw [hms, hvs]; simp [jsStrictEq]
    have hmem : ({ source := m.id, target := vpcFrameIdOf v, value := 1 } : Link)
        ∈ vpcSectionLinks nodes v := by
      unfold vpcSectionLinks
      apply List.mem_cons_of_mem
      rcases hmt with hmt | hmt | hmt
      · apply List.mem_append_left
        apply List.mem_append_left
        apply List.mem_append_left
        exact List.mem_map_of_mem _
          (List.mem_filter.mpr ⟨List.mem_filter.mpr ⟨hm, by simp [hmt]⟩, hcond⟩)
      · apply List.mem_append_left
        apply List.mem_append_left
        apply List.mem_append_right
        exact List.mem_map_of_mem _
          (List.mem_filter.mpr ⟨List.mem_filter.mpr ⟨hm, by simp [hmt]⟩, hcond⟩)
      · apply List.mem_append_right
        exact List.mem_map_of_mem _
          (List.mem_filter.mpr ⟨List.mem_filter.mpr ⟨hm, by simp [hmt]⟩, hcond⟩)
    apply List.mem_append_left
    apply List.mem_append_left
    apply List.mem_append_left
    exact mem_vpcLinksOf nodes v _ hv hvt hmem
  · intro m hm hmt
    rw [createLinks_eq]
    apply List.mem_append_left
    apply List.mem_append_left
    apply List.mem_append_right
    unfold adminLinksOf
    apply List.mem_map_of_mem
    refine List.mem_filter.mpr ⟨?_, ?_⟩
    · unfold nodesWithFrames
      apply List.mem_append_left
      apply List.mem_append_left
      exact hm
    · rcases hmt with h | h | h <;> simp [h]
  · intro m hm hmt
    rw [createLinks_eq]
    apply List.mem_append_left
    apply List.mem_append_right
    unfold storageLinksOf
    apply List.mem_map_of_mem
    refine List.mem_filter.mpr ⟨?_, by simp [hmt]⟩
    unfold nodesWithFrames
    apply List.mem_append_left
    apply List.mem_append_left
    exact hm

def c8Vpc : AssetData :=
  { id := some (JsVal.str "vpc-1"), name := some (JsVal.str "vpc-1"), type := "VPC",
    group := "Networking", val := 1,
    metadata := [("assetType", some (JsVal.str "VPC")), ("VpcId", some (JsVal.str "vpc-1"))] }

def c8Subnet : AssetData :=
  { id := some (JsVal.str "sub-1"), name := some (JsVal.str "sub-1"), type := "Subnet",
    group := "Networking", val := 1,
    metadata := [("assetType", some (JsVal.str "Subnet")), ("VpcId", some (JsVal.str "vpc-1"))] }

def c8Role : AssetData :=
  { id := some (JsVal.str "r-1"), name := some (JsVal.str "r-1"), type := "IAMRole",
    group := "Administrative", val := 1,
    metadata := [("assetType", some (JsVal.str "IAMRole"))] }

def c8Bucket : AssetData :=
  { id := some (JsVal.str "b-1"), name := some (JsVal.str "b-1"), type := "S3",
    group := "Storage", val := 1,
    metadata := [("assetType", some (JsVal.str "S3"))] }

def c8Nodes : List AssetData := [c8Vpc, c8Subnet, c8Role, c8Bucket]

theorem c8_createLinks_frames_and_membership_links_witness :
    ({ source := c8Subnet.id, target := some (JsVal.str ("frame-" ++ jsTemplate c8Vpc.id)),
       value := 1 } : Link) ∈ (createLinks c8Nodes).1
    ∧ ({ source := c8Role.id, target := adminFrame.id, value := 1 } : Link) ∈ (createLinks c8Nodes).1
    ∧ ({ source := c8Bucket.id, target := storageFrame.id, value := 1 } : Link) ∈ (createLinks c8Nodes).1 := by
  refine ⟨?_, ?_, ?_⟩
  · exact (c8_createLinks_frames_and_membership_links c8Nodes).2.2.2.2.1 c8Vpc
      (by simp [c8Nodes]) rfl c8Subnet (by simp [c8Nodes]) (Or.inl rfl) "vpc-1" rfl rfl
  · exact (c8_createLinks_frames_and_membership_links c8Nodes).2.2.2.2.2.1 c8Role
      (by simp [c8Nodes]) (Or.inl rfl)
  · exact (c8_createLinks_frames_and_membership_links c8Nodes).2.2.2.2.2.2 c8Bucket
      (by simp [c8Nodes]) rfl

/-- A node of type NetworkInterface can only come from the default branch of
the transform switch, whose metadata holds nothing but assetType; its VpcId
read is therefore undefined. -/
lemma transformRecord_networkInterface_no_vpcid (ty : String) (r : Record)
    (h : ty = "NetworkInterface") :
    objGet (transformRecord ty r).metadata "VpcId" = none := by
  subst h
  rfl

lemma processAsset_mem_transform (env : S3Env) (now : Nat) (cache : Cache)
    (a : AssetDirectoryEntry) :
    ∀ n ∈ (processAsset env now cache a).1, ∃ ty r, n = transformRecord ty r := by
  intro n hn
  unfold processAsset processAssetTable at hn
  split at hn
  · split at hn
    · split at hn
      · simp only [transformAssetData, List.mem_map] at hn
        obtain ⟨r, hr, hrn⟩ := hn
        exact ⟨_, r, hrn.symm⟩
      · simp at hn
    · simp at hn
  · simp at hn

lemma processAssets_mem_transform (env : S3Env) (now : Nat) :
    ∀ (dir : List AssetDirectoryEntry) (cache : Cache),
    ∀ n ∈ (processAssets env now cache dir).1, ∃ ty r, n = transformRecord ty r := by
  intro dir
  induction dir with
  | nil => intro cache n hn; simp [processAssets, processAssetsC] at hn
  | cons a rest ih =>
      intro cache n hn
      unfold processAssets processAssetsC at hn
      simp only [List.flatten_cons, List.mem_append] at hn
      rcases hn with hn | hn
      · exact processAsset_mem_transform env now cache a n hn
      · exact ih (processAsset env now cache a).2 n hn

/-- The endpoint invariant of createLinks when no NetworkInterface-typed
node carries a VpcId: every emitted link starts and ends at the id of an
emitted node (the frames included). -/
lemma createLinks_endpoints (nodes : List AssetData)
    (hNI : ∀ n ∈ nodes, n.type = "NetworkInterface" → objGet n.metadata "VpcId" = none) :
    ∀ l ∈ (createLinks nodes).1,
      (∃ n ∈ (createLinks nodes).2, n.id = l.source)
      ∧ (∃ n ∈ (createLinks nodes).2, n.id = l.target) := by
  intro l hl
  rw [createLinks_eq] at hl ⊢
  simp only at hl ⊢
  have hcross : crossVpcLinksOf nodes = [] := by
    unfold crossVpcLinksOf
    rw [List.filterMap_eq_nil_iff]
    intro ni hni
    have h1 := List.mem_filter.mp hni
    have h2 : ni.type = "NetworkInterface" := by simpa using h1.2
    rw [hNI ni h1.1 h2]
  rw [hcross, List.append_nil] at hl
  have hmemframe : ∀ vpc ∈ nodes.filter (fun n => n.type == "VPC"),
      mkVpcFrame vpc ∈ nodesWithFrames nodes := by
    intro vpc hv
    unfold nodesWithFrames
    apply List.mem_append_left
    apply List.mem_append_right
    exact List.mem_map_of_mem _ hv
  have hmembase : ∀ n ∈ nodes, n ∈ nodesWithFrames nodes := by
    intro n hn
    unfold nodesWithFrames
    apply List.mem_append_left
    apply List.mem_append_left
    exact hn
  rcases List.mem_append.mp hl with hl2 | hsto
  · rcases List.mem_append.mp hl2 with hvpc | hadm
    · obtain ⟨sec, hsec, hlsec⟩ := List.mem_flatten.mp hvpc
      rw [List.mem_map] at hsec
      obtain ⟨vpc, hvf, rfl⟩ := hsec
      have hvmem : vpc ∈ nodes := (List.mem_filter.mp hvf).1
      have htarget : ∃ n ∈ nodesWithFrames nodes, n.id = vpcFrameIdOf vpc :=
        ⟨mkVpcFrame vpc, hmemframe vpc hvf, rfl⟩
      rcases List.mem_cons.mp hlsec with rfl | hlrest
      · exact ⟨⟨vpc, hmembase vpc hvmem, rfl⟩, htarget⟩
      · have hsrc : ∃ s, s ∈ nodes ∧ l = { source := s.id, target := vpcFrameIdOf vpc, value := 1 } := by
          rcases List.mem_append.mp hlrest with h3 | h4
          · rcases List.mem_append.mp h3 with h5 | h6
            · rcases List.mem_append.mp h5 with h7 | h8
              · obtain ⟨s, hs, rfl⟩ := List.mem_map.mp h7
                exact ⟨s, (List.mem_filter.mp (List.mem_filter.mp hs).1).1, rfl⟩
              · obtain ⟨s, hs, rfl⟩ := List.mem_map.mp h8
                exact ⟨s, (List.mem_filter.mp (List.mem_filter.mp hs).1).1, rfl⟩
            · obtain ⟨s, hs, rfl⟩ := List.mem_map.mp h6
              exact ⟨s, (List.mem_filter.mp (List.mem_filter.mp hs).1).1, rfl⟩
          · obtain ⟨s, hs, rfl⟩ := List.mem_map.mp h4
            exact ⟨s, (List.mem_filter.mp (List.mem_filter.mp hs).1).1, rfl⟩
        obtain ⟨s, hsmem, rfl⟩ := hsrc
        exact ⟨⟨s, hmembase s hsmem, rfl⟩, htarget⟩
    · obtain ⟨n, hnf, rfl⟩ := List.mem_map.mp hadm
      have hn : n ∈ nodesWithFrames nodes := (List.mem_filter.mp hnf).1
      refine ⟨⟨n, hn, rfl⟩, ⟨adminFrame, ?_, rfl⟩⟩
      unfold nodesWithFrames
      apply List.mem_append_right
      simp
  · obtain ⟨n, hnf, rfl⟩ := List.mem_map.mp hsto
    have hn : n ∈ nodesWithFrames nodes := (List.mem_filter.mp hnf).1
    refine ⟨⟨n, hn, rfl⟩, ⟨storageFrame, ?_, rfl⟩⟩
    unfold nodesWithFrames
    apply List.mem_append_right
    simp

/-- C4: every link served by getGraphData has a source id and a target id
that both occur among the ids of the served nodes (the synthesized frame
nodes included). -/
theorem c4_link_endpoints_exist (env : S3Env) (now : Nat) (cache : Cache)
    (g : GraphData) (c2 : Cache)
    (h : getGraphData env now cache = (Except.ok g, c2)) :
    ∀ l ∈ g.links,
      (∃ n ∈ g.nodes, n.id = l.source) ∧ (∃ n ∈ g.nodes, n.id = l.target) := by
  unfold getGraphData at h
  rcases hd : getAssetDirectory env now cache with ⟨dres, c1⟩
  rw [hd] at h
  cases dres with
  | error e => simp at h
  | ok dir =>
      simp only [Prod.mk.injEq, Except.ok.injEq] at h
      obtain ⟨hg, -⟩ := h
      subst hg
      intro l hl
      simp only at hl ⊢
      have hNI : ∀ n ∈ (processAssets env now c1 dir).1,
          n.type = "NetworkInterface" → objGet n.metadata "VpcId" = none := by
        intro n hn ht
        obtain ⟨ty, r, rfl⟩ := processAssets_mem_transform env now dir c1 n hn
        exact transformRecord_networkInterface_no_vpcid ty r ht
      exact createLinks_endpoints (processAssets env now c1 dir).1 hNI l hl

def c4Env : S3Env := fun k =>
  if k == "Assets/AssetDirectory.parquet" then
    Except.ok [[("AssetType", JsVal.str "VPC"), ("AssetTable", JsVal.str "t1")]]
  else
    Except.ok [[("VpcId", JsVal.str "v1")]]

def c4VpcNode : AssetData :=
  { id := none, name := some (JsVal.str "v1"), type := "VPC", group := "Networking", val := 1,
    metadata := [("assetType", some (JsVal.str "VPC")), ("VpcId", some (JsVal.str "v1")),
                 ("cidrBlock", none), ("tags", none)] }

def c4Graph : GraphData :=
  { nodes := [c4VpcNode, mkVpcFrame c4VpcNode, adminFrame, storageFrame],
    links := [{ source := none, target := some (JsVal.str "frame-undefined"), value := 2 }],
    metadata :=
      { totalNodes := 4, totalLinks := 1,
        assetTypes := ["VPC", "VPC_FRAME", "ADMIN_FRAME", "STORAGE_FRAME"],
        vpcCount := 1, lastUpdate := 3,
        frameTypes := ["ADMIN_FRAME", "STORAGE_FRAME", "VPC_FRAME"] } }

def c4CacheOut : Cache :=
  [("Assets/AssetDirectory.parquet",
    { data := [[("AssetType", JsVal.str "VPC"), ("AssetTable", JsVal.str "t1")]], timestamp := 3 }),
   ("t1", { data := [[("VpcId", JsVal.str "v1")]], timestamp := 3 })]

theorem c4_link_endpoints_exist_witness :
    getGraphData c4Env 3 [] = (Except.ok c4Graph, c4CacheOut)
    ∧ (∀ l ∈ c4Graph.links,
        (∃ n ∈ c4Graph.nodes, n.id = l.source) ∧ (∃ n ∈ c4Graph.nodes, n.id = l.target)) :=
  ⟨rfl, c4_link_endpoints_exist c4Env 3 [] c4Graph c4CacheOut rfl⟩

def exceptIsOk {e a : Type} : Except e a → Bool
  | Except.ok _ => true
  | Except.error _ => false

/-- readParquetFile depends on the environment only through the fetched
key. -/
lemma readParquetFile_env_congr (env1 env2 : S3Env) (now : Nat) (c : Cache) (k : String)
    (h : env1 k = env2 k) :
    readParquetFile env1 now c k = readParquetFile env2 now c k := by
  unfold readParquetFile fetchParquet
  rw [h]

/-- The served records and the fetched flag of readParquetFile depend only
on the cache entry of the key and the environment at the key. -/
lemma readParquetFile_congr (env1 env2 : S3Env) (now : Nat) (c1 c2 : Cache) (k : String)
    (hc : cacheGet c1 k = cacheGet c2 k) (he : env1 k = env2 k) :
    (readParquetFile env1 now c1 k).1 = (readParquetFile env2 now c2 k).1
    ∧ (readParquetFile env1 now c1 k).2.2 = (readParquetFile env2 now c2 k).2.2 := by
  unfold readParquetFile fetchParquet
  rw [hc, he]
  cases cacheGet c2 k with
  | none => cases env2 k <;> simp
  | some entry =>
      by_cases hv : isCacheValid now (some entry) = true
      · simp [hv]
      · simp only [hv, if_false, Bool.false_eq_true]
        cases env2 k <;> simp

/-- readParquetFile leaves every other cache key untouched. -/
lemma readParquetFile_cacheGet_other (env : S3Env) (now : Nat) (c : Cache) (k j : String)
    (h : ¬ j = k) :
    cacheGet (readParquetFile env now c k).2.1 j = cacheGet c j := by
  unfold readParquetFile fetchParquet
  cases cacheGet c k with
  | none =>
      cases env k with
      | error e => rfl
      | ok records => simp [cacheGet_set_other c k j _ h]
  | some entry =>
      by_cases hv : isCacheValid now (some entry) = true
      · simp [hv]
      · simp only [hv, if_false, Bool.false_eq_true]
        cases env k with
        | error e => rfl
        | ok records => simp [cacheGet_set_other c k j _ h]

/-- Under equal key inputs, the cache entry of the key after readParquetFile
is the same. -/
lemma readParquetFile_cacheGet_self_congr (env1 env2 : S3Env) (now : Nat)
    (c1 c2 : Cache) (k : String)
    (hc : cacheGet c1 k = cacheGet c2 k) (he : env1 k = env2 k) :
    cacheGet (readParquetFile env1 now c1 k).2.1 k
      = cacheGet (readParquetFile env2 now c2 k).2.1 k := by
  unfold readParquetFile fetchParquet
  rw [hc, he]
  cases cacheGet c2 k with
  | none =>
      cases env2 k with
      | error e => simpa using hc
      | ok records => simp [cacheGet_set_self]
  | some entry =>
      by_cases hv : isCacheValid now (some entry) = true
      · simpa [hv] using hc
      · simp only [hv, if_false, Bool.false_eq_true]
        cases env2 k with
        | error e => simpa using hc
        | ok records => simp [cacheGet_set_self]

/-- A stale key whose fetch fails: readParquetFile rethrows and leaves the
cache unchanged. -/
lemma readParquetFile_error_of_stale (env : S3Env) (now : Nat) (c : Cache) (k e : String)
    (hstale : isCacheValid now (cacheGet c k) = false) (hfail : env k = Except.error e) :
    readParquetFile env now c k = (Except.error e, c, true) := by
  unfold readParquetFile fetchParquet
  rw [hfail]
  cases hcg : cacheGet c k with
  | none => rfl
  | some entry =>
      rw [hcg] at hstale
      simp only [hstale, if_false, Bool.false_eq_true]

lemma processAssetTable_cache (env : S3Env) (now : Nat) (c : Cache) (tb ty : Option JsVal) :
    (processAssetTable env now c tb ty).2
      = (match tb with
         | some (JsVal.str key) => (readParquetFile env now c key).2.1
         | _ => c) := by
  cases tb with
  | none => rfl
  | some v =>
      cases v with
      | str key =>
          rcases hrp : readParquetFile env now c key with ⟨res, c2, f⟩
          simp only [processAssetTable, hrp]
          cases res with
          | error e => rfl
          | ok records =>
              cases ty with
              | none => rfl
              | some w => cases w <;> rfl
      | num n => rfl
      | bool b => rfl
      | arr l => rfl

lemma processAssetTable_agree (env envP : S3Env) (now : Nat) (c cP : Cache)
    (key : String) (ty : Option JsVal)
    (hcg : cacheGet cP key = cacheGet c key) (he : envP key = env key) :
    (processAssetTable envP now cP (some (JsVal.str key)) ty).1
      = (processAssetTable env now c (some (JsVal.str key)) ty).1 := by
  rcases hp : readParquetFile envP now cP key with ⟨resP, cP2, fP⟩
  rcases hq : readParquetFile env now c key with ⟨res, c2, f⟩
  have h1 : resP = res := by
    have h2 := (readParquetFile_congr envP env now cP c key hcg he).1
    rw [hp, hq] at h2
    exact h2
  subst h1
  simp only [processAssetTable, hp, hq]
  cases resP with
  | error e => rfl
  | ok records =>
      cases ty with
      | none => rfl
      | some w => cases w <;> rfl

lemma processAsset_mask (env envP : S3Env) (now : Nat) (t e : String)
    (hagree : ∀ k, ¬ k = t → envP k = env k) (hfail : envP t = Except.error e)
    (a : AssetDirectoryEntry) (c cP : Cache)
    (hR : ∀ j, ¬ j = t → cacheGet cP j = cacheGet c j)
    (hs : isCacheValid now (cacheGet cP t) = false) :
    ((processAsset envP now cP a).1
      = (match a.AssetTable with
         | some (JsVal.str s) => if s = t then [] else (processAsset env now c a).1
         | _ => (processAsset env now c a).1))
    ∧ (∀ j, ¬ j = t →
        cacheGet (processAsset envP now cP a).2 j = cacheGet (processAsset env now c a).2 j)
    ∧ isCacheValid now (cacheGet (processAsset envP now cP a).2 t) = false := by
  unfold processAsset
  rcases hT : a.AssetTable with _ | v
  · exact ⟨rfl, fun j hj => hR j hj, hs⟩
  · cases v with
    | str key =>
        by_cases hk : key = t
        · subst hk
          have hrpP : readParquetFile envP now cP key = (Except.error e, cP, true) :=
            readParquetFile_error_of_stale envP now cP key e hs hfail
          have hPA : processAssetTable envP now cP (some (JsVal.str key)) a.AssetType = ([], cP) := by
            simp only [processAssetTable, hrpP]
          refine ⟨?_, ?_, ?_⟩
          · rw [hPA]
            simp
          · intro j hj
            rw [hPA, processAssetTable_cache]
            simp only
            rw [readParquetFile_cacheGet_other env now c key j hj]
            exact hR j hj
          · rw [hPA]
            exact hs
        · have he2 : envP key = env key := hagree key hk
          have hcg : cacheGet cP key = cacheGet c key := hR key hk
          refine ⟨?_, ?_, ?_⟩
          · rw [processAssetTable_agree env envP now c cP key a.AssetType hcg he2]
            simp [hk]
          · intro j hj
            rw [processAssetTable_cache, processAssetTable_cache]
            simp only
            by_cases hjk : j = key
            · subst hjk
              exact readParquetFile_cacheGet_self_congr envP env now cP c j hcg he2
            · rw [readParquetFile_cacheGet_other envP now cP key j hjk,
                  readParquetFile_cacheGet_other env now c key j hjk]
              exact hR j hj
          · rw [processAssetTable_cache]
            simp only
            rw [readParquetFile_cacheGet_other envP now cP key t (fun h2 => hk h2.symm)]
            exact hs
    | num n => exact ⟨rfl, fun j hj => hR j hj, hs⟩
    | bool b => exact ⟨rfl, fun j hj => hR j hj, hs⟩
    | arr l => exact ⟨rfl, fun j hj => hR j hj, hs⟩

/-- The per-entry contributions with the failing asset table blanked out. -/
def maskContribs (t : String) : List AssetDirectoryEntry → List (List AssetData) → List (List AssetData) :=
  List.zipWith (fun a ns =>
    match a.AssetTable with
    | some (JsVal.str s) => if s = t then [] else ns
    | _ => ns)

lemma processAssetsC_mask (env envP : S3Env) (now : Nat) (t e : String)
    (hagree : ∀ k, ¬ k = t → envP k = env k) (hfail : envP t = Except.error e) :
    ∀ (dir : List AssetDirectoryEntry) (c cP : Cache),
    (∀ j, ¬ j = t → cacheGet cP j = cacheGet c j) →
    isCacheValid now (cacheGet cP t) = false →
    (processAssetsC envP now cP dir).1 = maskContribs t dir (processAssetsC env now c dir).1
    ∧ (∀ j, ¬ j = t →
        cacheGet (processAssetsC envP now cP dir).2 j = cacheGet (processAssetsC env now c dir).2 j)
    ∧ isCacheValid now (cacheGet (processAssetsC envP now cP dir).2 t) = false := by
  intro dir
  induction dir with
  | nil =>
      intro c cP hR hs
      exact ⟨rfl, hR, hs⟩
  | cons a rest ih =>
      intro c cP hR hs
      obtain ⟨hm1, hm2, hm3⟩ :=
        processAsset_mask env envP now t e hagree hfail a c cP hR hs
      obtain ⟨hi1, hi2, hi3⟩ :=
        ih (processAsset env now c a).2 (processAsset envP now cP a).2 hm2 hm3
      refine ⟨?_, hi2, hi3⟩
      simp only [processAssetsC, maskContribs, List.zipWith_cons_cons]
      rw [hm1, hi1]
      rfl

lemma processAsset_error_congr (env1 env2 : S3Env) (now : Nat) (t e1 e2 : String)
    (hagree : ∀ k, ¬ k = t → env1 k = env2 k)
    (h1 : env1 t = Except.error e1) (h2 : env2 t = Except.error e2)
    (a : AssetDirectoryEntry) (c : Cache)
    (hs : isCacheValid now (cacheGet c t) = false) :
    processAsset env1 now c a = processAsset env2 now c a
    ∧ isCacheValid now (cacheGet (processAsset env1 now c a).2 t) = false := by
  unfold processAsset
  rcases hT : a.AssetTable with _ | v
  · exact ⟨rfl, hs⟩
  · cases v with
    | str key =>
        by_cases hk : key = t
        · subst hk
          have he1 : readParquetFile env1 now c key = (Except.error e1, c, true) :=
            readParquetFile_error_of_stale env1 now c key e1 hs h1
          have he2 : readParquetFile env2 now c key = (Except.error e2, c, true) :=
            readParquetFile_error_of_stale env2 now c key e2 hs h2
          constructor
          · simp only [processAssetTable, he1, he2]
          · simp only [processAssetTable, he1]
            exact hs
        · have heq : readParquetFile env1 now c key = readParquetFile env2 now c key :=
            readParquetFile_env_congr env1 env2 now c key (hagree key hk)
          constructor
          · simp only [processAssetTable, heq]
          · rw [processAssetTable_cache]
            simp only
            rw [readParquetFile_cacheGet_other env1 now c key t (fun h3 => hk h3.symm)]
            exact hs
    | num n => exact ⟨rfl, hs⟩
    | bool b => exact ⟨rfl, hs⟩
    | arr l => exact ⟨rfl, hs⟩

lemma processAssetsC_error_congr (env1 env2 : S3Env) (now : Nat) (t e1 e2 : String)
    (hagree : ∀ k, ¬ k = t → env1 k = env2 k)
    (h1 : env1 t = Except.error e1) (h2 : env2 t = Except.error e2) :
    ∀ (dir : List AssetDirectoryEntry) (c : Cache),
    isCacheValid now (cacheGet c t) = false →
    processAssetsC env1 now c dir = processAssetsC env2 now c dir := by
  intro dir
  induction dir with
  | nil => intro c hs; rfl
  | cons a rest ih =>
      intro c hs
      obtain ⟨hpe, hps⟩ :=
        processAsset_error_congr env1 env2 now t e1 e2 hagree h1 h2 a c hs
      simp only [processAssetsC, hpe]
      rw [ih (processAsset env2 now c a).2 (hpe ▸ hps)]

/-- The entry list built by getAssetDirectory from the directory records. -/
def dirEntriesOf (records : List Record) : List AssetDirectoryEntry :=
  records.map (fun r =>
    { AssetType := getField r "AssetType", AssetTable := getField r "AssetTable" })

lemma getAssetDirectory_cache (env : S3Env) (now : Nat) (cache : Cache) :
    (getAssetDirectory env now cache).2 = (readParquetFile env now cache assetDirectoryPath).2.1 := by
  unfold getAssetDirectory
  rcases hrp : readParquetFile env now cache assetDirectoryPath with ⟨res, c1, f⟩
  cases res <;> rfl

lemma getAssetDirectory_ok (env : S3Env) (now : Nat) (cache : Cache) (recs : List Record)
    (h : (readParquetFile env now cache assetDirectoryPath).1 = Except.ok recs) :
    (getAssetDirectory env now cache).1 = Except.ok (dirEntriesOf recs) := by
  unfold getAssetDirectory dirEntriesOf
  rcases hrp : readParquetFile env now cache assetDirectoryPath with ⟨res, c1, f⟩
  rw [hrp] at h
  simp only at h
  subst h
  rfl

lemma getAssetDirectory_error (env : S3Env) (now : Nat) (cache : Cache) (e0 : String)
    (h : (readParquetFile env now cache assetDirectoryPath).1 = Except.error e0) :
    (getAssetDirectory env now cache).1 = Except.error "Failed to read asset directory" := by
  unfold getAssetDirectory
  rcases hrp : readParquetFile env now cache assetDirectoryPath with ⟨res, c1, f⟩
  rw [hrp] at h
  simp only at h
  subst h
  rfl

/-- The value getGraphData builds from the accumulated nodes. -/
def graphFromNodes (now : Nat) (allNodes : List AssetData) : GraphData :=
  let linked := createLinks allNodes
  { nodes := linked.2,
    links := linked.1,
    metadata :=
      { totalNodes := linked.2.length,
        totalLinks := linked.1.length,
        assetTypes := (linked.2.map (fun n => n.type)).eraseDups,
        vpcCount := (linked.2.filter (fun n => n.type == "VPC")).length,
        lastUpdate := now,
        frameTypes := ["ADMIN_FRAME", "STORAGE_FRAME", "VPC_FRAME"] } }

lemma getGraphData_of_dir (env : S3Env) (now : Nat) (cache : Cache)
    (dir : List AssetDirectoryEntry) (c1 : Cache)
    (h : getAssetDirectory env now cache = (Except.ok dir, c1)) :
    getGraphData env now cache
      = (Except.ok (graphFromNodes now (processAssets env now c1 dir).1),
         (processAssets env now c1 dir).2) := by
  unfold getGraphData
  rw [h]
  rfl

lemma getGraphData_ok_shape (env : S3Env) (now : Nat) (cache : Cache) (recs : List Record)
    (h : (readParquetFile env now cache assetDirectoryPath).1 = Except.ok recs) :
    ∃ g, (getGraphData env now cache).1 = Except.ok g := by
  unfold getGraphData
  rcases hga : getAssetDirectory env now cache with ⟨res, c1⟩
  have h2 : res = Except.ok (dirEntriesOf recs) := by
    have h3 := getAssetDirectory_ok env now cache recs h
    rw [hga] at h3
    exact h3
  subst h2
  exact ⟨_, rfl⟩

/-- C3: per-asset-type failure isolation of getGraphData.  For an
environment envP that differs from env only by failing on one asset table t
(whose cache entry is not fresh), getGraphData still returns normally; the
per-entry node contributions of the envP run are exactly those of the env
run with every entry whose table is t blanked to zero nodes; the whole
response is independent of the failure value, so nothing in it identifies
which asset type failed; and in general getGraphData fails exactly when the
directory read fails, and then with the fixed directory failure message. -/
theorem c3_asset_type_failure_isolation
    (env envP : S3Env) (now : Nat) (cache : Cache) (t e : String)
    (hagree : ∀ k, ¬ k = t → envP k = env k)
    (ht : ¬ t = assetDirectoryPath)
    (hfail : envP t = Except.error e)
    (hstale : isCacheValid now (cacheGet cache t) = false) :
    (∀ (env0 : S3Env) (now0 : Nat) (c0 : Cache),
        exceptIsOk (getGraphData env0 now0 c0).1
          = exceptIsOk (readParquetFile env0 now0 c0 assetDirectoryPath).1
        ∧ (exceptIsOk (readParquetFile env0 now0 c0 assetDirectoryPath).1 = false →
            (getGraphData env0 now0 c0).1 = Except.error "Failed to read asset directory"))
    ∧ (∀ dirRecs : List Record,
        (readParquetFile env now cache assetDirectoryPath).1 = Except.ok dirRecs →
        (∃ g, (getGraphData env now cache).1 = Except.ok g)
        ∧ (∃ gP, (getGraphData envP now cache).1 = Except.ok gP)
        ∧ (processAssetsC envP now (readParquetFile env now cache assetDirectoryPath).2.1
              (dirEntriesOf dirRecs)).1
            = maskContribs t (dirEntriesOf dirRecs)
                (processAssetsC env now (readParquetFile env now cache assetDirectoryPath).2.1
                  (dirEntriesOf dirRecs)).1)
    ∧ (∀ (envQ : S3Env) (e2 : String), (∀ k, ¬ k = t → envQ k = env k) →
        envQ t = Except.error e2 →
        getGraphData envQ now cache = getGraphData envP now cache) := by
  have hdirP : ¬ assetDirectoryPath = t := fun h2 => ht h2.symm
  refine ⟨?_, ?_, ?_⟩
  · intro env0 now0 c0
    rcases hrp : readParquetFile env0 now0 c0 assetDirectoryPath with ⟨res, c1, f⟩
    cases res with
    | error e0 =>
        have herr : (getGraphData env0 now0 c0).1 = Except.error "Failed to read asset directory" := by
          have h3 := getAssetDirectory_error env0 now0 c0 e0 (by rw [hrp])
          unfold getGraphData
          rcases hga : getAssetDirectory env0 now0 c0 with ⟨res2, c2⟩
          rw [hga] at h3
          simp only at h3
          subst h3
          rfl
        rw [herr]
        exact ⟨rfl, fun _ => rfl⟩
    | ok recs =>
        obtain ⟨g, hg⟩ := getGraphData_ok_shape env0 now0 c0 recs (by rw [hrp])
        rw [hg]
        exact ⟨rfl, fun hc => by simp [exceptIsOk] at hc⟩
  · intro dirRecs hdir
    have hdirPread : readParquetFile envP now cache assetDirectoryPath
        = readParquetFile env now cache assetDirectoryPath :=
      readParquetFile_env_congr envP env now cache assetDirectoryPath
        (hagree assetDirectoryPath hdirP)
    have hstale1 : isCacheValid now
        (cacheGet (readParquetFile env now cache assetDirectoryPath).2.1 t) = false := by
      rw [readParquetFile_cacheGet_other env now cache assetDirectoryPath t ht]
      exact hstale
    refine ⟨getGraphData_ok_shape env now cache dirRecs hdir, ?_, ?_⟩
    · exact getGraphData_ok_shape envP now cache dirRecs (by rw [hdirPread]; exact hdir)
    · exact (processAssetsC_mask env envP now t e hagree hfail
        (dirEntriesOf dirRecs) (readParquetFile env now cache assetDirectoryPath).2.1
        (readParquetFile env now cache assetDirectoryPath).2.1
        (fun j hj => rfl) hstale1).1
  · intro envQ e2 hagreeQ hfailQ
    have hQP : ∀ k, ¬ k = t → envQ k = envP k := by
      intro k hk
      rw [hagreeQ k hk, hagree k hk]
    have hdirQ : readParquetFile envQ now cache assetDirectoryPath
        = readParquetFile envP now cache assetDirectoryPath :=
      readParquetFile_env_congr envQ envP now cache assetDirectoryPath
        (hQP assetDirectoryPath hdirP)
    have hga : getAssetDirectory envQ now cache = getAssetDirectory envP now cache := by
      unfold getAssetDirectory
      rw [hdirQ]
    rcases hga2 : getAssetDirectory envP now cache with ⟨res, c1⟩
    cases res with
    | error e3 =>
        have hEQ : getGraphData envQ now cache = (Except.error e3, c1) := by
          unfold getGraphData
          rw [hga, hga2]
        have hEP : getGraphData envP now cache = (Except.error e3, c1) := by
          unfold getGraphData
          rw [hga2]
        rw [hEQ, hEP]
    | ok dir =>
        have hc1 : c1 = (readParquetFile envP now cache assetDirectoryPath).2.1 := by
          have h4 := getAssetDirectory_cache envP now cache
          rw [hga2] at h4
          exact h4
        have hstale1 : isCacheValid now (cacheGet c1 t) = false := by
          rw [hc1, readParquetFile_cacheGet_other envP now cache assetDirectoryPath t ht]
          exact hstale
        have hpc : processAssetsC envQ now c1 dir = processAssetsC envP now c1 dir :=
          processAssetsC_error_congr envQ envP now t e2 e hQP hfailQ hfail dir c1 hstale1
        have hga2Q : getAssetDirectory envQ now cache = (Except.ok dir, c1) := by
          rw [hga]; exact hga2
        rw [getGraphData_of_dir envQ now cache dir c1 hga2Q,
            getGraphData_of_dir envP now cache dir c1 hga2]
        unfold processAssets
        rw [hpc]

def c3DirRecs : List Record :=
  [[("AssetType", JsVal.str "VPC"), ("AssetTable", JsVal.str "t1")],
   [("AssetType", JsVal.str "S3"), ("AssetTable", JsVal.str "t2")]]

def c3Env : S3Env := fun k =>
  if k == "Assets/AssetDirectory.parquet" then Except.ok c3DirRecs
  else if k == "t1" then Except.ok [[("VpcId", JsVal.str "v1")]]
  else Except.ok [[("Name", JsVal.str "b1")]]

def c3EnvP : S3Env := fun k =>
  if k = "t2" then Except.error "boom" else c3Env k

theorem c3_asset_type_failure_isolation_witness :
    (readParquetFile c3Env 5 [] assetDirectoryPath).1 = Except.ok c3DirRecs
    ∧ (∃ g, (getGraphData c3Env 5 []).1 = Except.ok g)
    ∧ (∃ gP, (getGraphData c3EnvP 5 []).1 = Except.ok gP)
    ∧ (processAssetsC c3EnvP 5 (readParquetFile c3Env 5 [] assetDirectoryPath).2.1
          (dirEntriesOf c3DirRecs)).1
        = maskContribs "t2" (dirEntriesOf c3DirRecs)
            (processAssetsC c3Env 5 (readParquetFile c3Env 5 [] assetDirectoryPath).2.1
              (dirEntriesOf c3DirRecs)).1 := by
  have h := (c3_asset_type_failure_isolation c3Env c3EnvP 5 [] "t2" "boom"
    (fun k hk => if_neg hk) (by decide) rfl rfl).2.1 c3DirRecs rfl
  exact ⟨rfl, h.1, h.2.1, h.2.2⟩

namespace RelocScript

lemma waitForInstanceState_inv
    (describe : Nat → List (Option String) → Except String (Option Ec2Instance))
    (iid : Option String) (tgt : String) :
    ∀ (fuel : Nat) (tr tr2 : List ApiCall) (r : Except String Unit),
    waitForInstanceState describe iid tgt fuel tr = some (r, tr2) →
    ∃ n, 0 < n ∧ tr2 = tr ++ List.replicate n (ApiCall.describeInstances [iid]) := by
  intro fuel
  induction fuel with
  | zero => intro tr tr2 r h; simp [waitForInstanceState] at h
  | succ fuel ih =>
      intro tr tr2 r h
      unfold waitForInstanceState at h
      split at h
      · simp only [Option.some.injEq, Prod.mk.injEq] at h
        exact ⟨1, Nat.one_pos, h.2.symm⟩
      · split at h
        · simp only [Option.some.injEq, Prod.mk.injEq] at h
          exact ⟨1, Nat.one_pos, h.2.symm⟩
        · obtain ⟨n, hn, htr⟩ := ih (tr ++ [ApiCall.describeInstances [iid]]) tr2 r h
          refine ⟨n + 1, Nat.succ_pos n, ?_⟩
          rw [htr, List.append_assoc]
          simp [List.replicate_succ]

lemma waitForImageAvailable_inv
    (describe : Nat → List (Option String) → Except String (Option String))
    (imageId : Option String) :
    ∀ (fuel : Nat) (tr tr2 : List ApiCall) (r : Except String Unit),
    waitForImageAvailable describe imageId fuel tr = some (r, tr2) →
    ∃ n, 0 < n ∧ tr2 = tr ++ List.replicate n (ApiCall.describeImages [imageId]) := by
  intro fuel
  induction fuel with
  | zero => intro tr tr2 r h; simp [waitForImageAvailable] at h
  | succ fuel ih =>
      intro tr tr2 r h
      unfold waitForImageAvailable at h
      split at h
      · simp only [Option.some.injEq, Prod.mk.injEq] at h
        exact ⟨1, Nat.one_pos, h.2.symm⟩
      · split at h
        · simp only [Option.some.injEq, Prod.mk.injEq] at h
          exact ⟨1, Nat.one_pos, h.2.symm⟩
        · obtain ⟨n, hn, htr⟩ := ih (tr ++ [ApiCall.describeImages [imageId]]) tr2 r h
          refine ⟨n + 1, Nat.succ_pos n, ?_⟩
          rw [htr, List.append_assoc]
          simp [List.replicate_succ]

/-- The elastic-IP step only extends the trace: always one DescribeAddresses
call, followed by nothing, by a lone disassociation, or by a disassociation
and an association with the new instance. -/
lemma handleElasticIP_shape
    (dA : Nat → Except String (List Ec2Address))
    (dis : Nat → Option String → Except String Unit)
    (assoc : Nat → Option String → Option String → Except String Unit)
    (instanceId : String) (newInstanceId : Option String) (tr : List ApiCall) :
    ∃ rest : List ApiCall,
      handleElasticIP dA dis assoc instanceId newInstanceId tr
        = tr ++ ApiCall.describeAddresses :: rest
      ∧ (rest = []
         ∨ (∃ a, rest = [ApiCall.disassociateAddress a])
         ∨ (∃ a b, rest = [ApiCall.disassociateAddress a,
                           ApiCall.associateAddress b newInstanceId])) := by
  unfold handleElasticIP
  split
  · exact ⟨[], by simp, Or.inl rfl⟩
  · split
    · exact ⟨[], by simp, Or.inl rfl⟩
    · rename_i x2 eip hfind
      dsimp only
      split
      · exact ⟨[ApiCall.disassociateAddress eip.associationId], by simp,
          Or.inr (Or.inl ⟨eip.associationId, rfl⟩)⟩
      · split
        · exact ⟨[ApiCall.disassociateAddress eip.associationId,
                  ApiCall.associateAddress eip.allocationId newInstanceId], by simp,
            Or.inr (Or.inr ⟨eip.associationId, eip.allocationId, rfl⟩)⟩
        · exact ⟨[ApiCall.disassociateAddress eip.associationId,
                  ApiCall.associateAddress eip.allocationId newInstanceId], by simp,
            Or.inr (Or.inr ⟨eip.associationId, eip.allocationId, rfl⟩)⟩

end RelocScript

namespace RelocScript

/-- The full characterization of a successful run of the relocation main
sequence: every step succeeded at its call position, and the issued trace
is the initial describe, the stop, at least one stopped-poll, the image
creation, at least one image poll, the subnet lookup, the launch built from
the created image and the found subnet, and at least one running-poll of
the launched instance. -/
def RelocMainSpec (env : Ec2Env) (now : Nat) (instanceId destinationVpcId : String)
    (pre : PreOk) (tr : List ApiCall) : Prop :=
  ∃ (inst : Ec2Instance) (n1 : Nat) (imageId : Option String) (n2 : Nat)
    (subnets : List Ec2Subnet) (subnet0 : Ec2Subnet) (insts : List RunInstanceInfo)
    (inst0 : RunInstanceInfo) (n3 : Nat),
    env.describeInstances 0 [some instanceId] = Except.ok (some inst)
    ∧ (inst.vpcId == some destinationVpcId) = false
    ∧ (∃ p, env.stopInstances p [some instanceId] = Except.ok () ∧ p = 1)
    ∧ 0 < n1
    ∧ (∃ p, env.createImage p instanceId = Except.ok imageId ∧ p = 2 + n1)
    ∧ 0 < n2
    ∧ (∃ p, env.describeSubnets p destinationVpcId inst.availabilityZone = Except.ok subnets
        ∧ p = 3 + n1 + n2)
    ∧ subnets.head? = some subnet0
    ∧ (∃ p, env.runInstances p (mkRunInstancesCall imageId inst subnet0.subnetId) = Except.ok insts
        ∧ p = 4 + n1 + n2)
    ∧ insts.head? = some inst0
    ∧ 0 < n3
    ∧ pre = { imageId := imageId, newInstanceId := inst0.instanceId }
    ∧ tr = ApiCall.describeInstances [some instanceId]
        :: ApiCall.stopInstances [some instanceId]
        :: (List.replicate n1 (ApiCall.describeInstances [some instanceId])
          ++ ApiCall.createImage instanceId (amiName instanceId now) (amiDescription instanceId) true
          :: (List.replicate n2 (ApiCall.describeImages [imageId])
            ++ ApiCall.describeSubnets destinationVpcId inst.availabilityZone
            :: mkRunInstancesCall imageId inst subnet0.subnetId
            :: List.replicate n3 (ApiCall.describeInstances [inst0.instanceId])))

lemma relocateMain_ok_inv (env : Ec2Env) (now fuel : Nat)
    (instanceId destinationVpcId : String) (pre : PreOk) (tr : List ApiCall)
    (h : relocateMain env now fuel instanceId destinationVpcId = some (Except.ok pre, tr)) :
    RelocMainSpec env now instanceId destinationVpcId pre tr := by
  unfold relocateMain at h
  try dsimp only at h
  split at h
  · simp at h
  · simp at h
  · rename_i inst hdesc
    split at h
    · simp at h
    · rename_i hvpc
      try dsimp only at h
      split at h
      · simp at h
      · rename_i u1 hstop
        split at h
        · simp at h
        · simp at h
        · rename_i u2 tr2 hw1
          obtain ⟨n1, hn1, htr2⟩ :=
            waitForInstanceState_inv env.describeInstances (some instanceId) "stopped"
              fuel _ tr2 _ hw1
          subst htr2
          split at h
          · simp at h
          · rename_i imageId hci
            split at h
            · simp at h
            · simp at h
            · rename_i u3 tr4 hw2
              obtain ⟨n2, hn2, htr4⟩ :=
                waitForImageAvailable_inv env.describeImages imageId fuel _ tr4 _ hw2
              subst htr4
              split at h
              · simp at h
              · rename_i subnets hsub
                split at h
                · simp at h
                · rename_i subnet0 hhead
                  split at h
                  · simp at h
                  · rename_i insts hrun
                    split at h
                    · simp at h
                    · rename_i inst0 hhead2
                      split at h
                      · simp at h
                      · simp at h
                      · rename_i u4 tr7 hw3
                        obtain ⟨n3, hn3, htr7⟩ :=
                          waitForInstanceState_inv env.describeInstances inst0.instanceId
                            "running" fuel _ tr7 _ hw3
                        subst htr7
                        simp only [Option.some.injEq, Prod.mk.injEq, Except.ok.injEq] at h
                        obtain ⟨hpre, htr⟩ := h
                        refine ⟨inst, n1, imageId, n2, subnets, subnet0, insts, inst0, n3,
                          hdesc, by simpa using hvpc,
                          ⟨_, hstop, by simp only [List.length_cons, List.length_nil]; try omega⟩, hn1,
                          ⟨_, hci, by simp only [List.length_append, List.length_replicate,
                            List.length_cons, List.length_nil]; try omega⟩, hn2,
                          ⟨_, hsub, by simp only [List.length_append, List.length_replicate,
                            List.length_cons, List.length_nil]; try omega⟩, hhead,
                          ⟨_, hrun, by simp only [List.length_append, List.length_replicate,
                            List.length_cons, List.length_nil]; try omega⟩, hhead2,
                          hn3, hpre.symm, ?_⟩
                        rw [← htr]
                        simp [List.append_assoc]

end RelocScript

/-- Whether an operation belongs to the main relocation sequence (as
opposed to the elastic-IP handling and the never-issued terminate). -/
def ApiCall.isMainSequenceOp : ApiCall → Bool
  | ApiCall.describeInstances _ => true
  | ApiCall.stopInstances _ => true
  | ApiCall.createImage _ _ _ _ => true
  | ApiCall.describeImages _ => true
  | ApiCall.describeSubnets _ _ => true
  | ApiCall.runInstances _ _ _ _ _ _ _ _ => true
  | _ => false

lemma isMainSequenceOp_not_elastic (c : ApiCall) (h : c.isMainSequenceOp = true) :
    c.isElastic = false ∧ c.isTerminate = false := by
  cases c <;> simp [ApiCall.isElastic, ApiCall.isTerminate] <;> simp [ApiCall.isMainSequenceOp] at h

lemma all_replicate_apicall (n : Nat) (a : ApiCall) (p : ApiCall → Bool) :
    (List.replicate n a).all p = (decide (n = 0) || p a) := by
  induction n with
  | zero => simp
  | succ n ih =>
      simp only [List.replicate_succ, List.all_cons, ih]
      cases p a <;> cases n <;> simp

namespace RelocScript

lemma relocateMain_trace_ops (env : Ec2Env) (now fuel : Nat)
    (instanceId destinationVpcId : String) (x : Except RelocError PreOk) (tr : List ApiCall)
    (h : relocateMain env now fuel instanceId destinationVpcId = some (x, tr)) :
    tr.all ApiCall.isMainSequenceOp = true := by
  unfold relocateMain at h
  try dsimp only at h
  split at h
  · simp only [Option.some.injEq, Prod.mk.injEq] at h
    rw [← h.2]
    simp [ApiCall.isMainSequenceOp]
  · simp only [Option.some.injEq, Prod.mk.injEq] at h
    rw [← h.2]
    simp [ApiCall.isMainSequenceOp]
  · rename_i inst hdesc
    split at h
    · simp only [Option.some.injEq, Prod.mk.injEq] at h
      rw [← h.2]
      simp [ApiCall.isMainSequenceOp]
    · rename_i hvpc
      try dsimp only at h
      split at h
      · simp only [Option.some.injEq, Prod.mk.injEq] at h
        rw [← h.2]
        simp [ApiCall.isMainSequenceOp]
      · rename_i u1 hstop
        split at h
        · simp at h
        · rename_i e1 tr2 hw1
          obtain ⟨n1, hn1, htr2⟩ :=
            waitForInstanceState_inv env.describeInstances (some instanceId) "stopped"
              fuel _ tr2 _ hw1
          subst htr2
          simp only [Option.some.injEq, Prod.mk.injEq] at h
          rw [← h.2]
          simp [List.all_append, all_replicate_apicall, ApiCall.isMainSequenceOp]
        · rename_i u2 tr2 hw1
          obtain ⟨n1, hn1, htr2⟩ :=
            waitForInstanceState_inv env.describeInstances (some instanceId) "stopped"
              fuel _ tr2 _ hw1
          subst htr2
          split at h
          · simp only [Option.some.injEq, Prod.mk.injEq] at h
            rw [← h.2]
            simp [List.all_append, all_replicate_apicall, ApiCall.isMainSequenceOp]
          · rename_i imageId hci
            split at h
            · simp at h
            · rename_i e2 tr4 hw2
              obtain ⟨n2, hn2, htr4⟩ :=
                waitForImageAvailable_inv env.describeImages imageId fuel _ tr4 _ hw2
              subst htr4
              simp only [Option.some.injEq, Prod.mk.injEq] at h
              rw [← h.2]
              simp [List.all_append, all_replicate_apicall, ApiCall.isMainSequenceOp]
            · rename_i u3 tr4 hw2
              obtain ⟨n2, hn2, htr4⟩ :=
                waitForImageAvailable_inv env.describeImages imageId fuel _ tr4 _ hw2
              subst htr4
              split at h
              · simp only [Option.some.injEq, Prod.mk.injEq] at h
                rw [← h.2]
                simp [List.all_append, all_replicate_apicall, ApiCall.isMainSequenceOp]
              · rename_i subnets hsub
                split at h
                · simp only [Option.some.injEq, Prod.mk.injEq] at h
                  rw [← h.2]
                  simp [List.all_append, all_replicate_apicall, ApiCall.isMainSequenceOp]
                · rename_i subnet0 hhead
                  split at h
                  · simp only [Option.some.injEq, Prod.mk.injEq] at h
                    rw [← h.2]
                    simp [List.all_append, all_replicate_apicall, ApiCall.isMainSequenceOp,
                      mkRunInstancesCall]
                  · rename_i insts hrun
                    split at h
                    · simp only [Option.some.injEq, Prod.mk.injEq] at h
                      rw [← h.2]
                      simp [List.all_append, all_replicate_apicall, ApiCall.isMainSequenceOp,
                        mkRunInstancesCall]
                    · rename_i inst0 hhead2
                      split at h
                      · simp at h
                      · rename_i e3 tr7 hw3
                        obtain ⟨n3, hn3, htr7⟩ :=
                          waitForInstanceState_inv env.describeInstances inst0.instanceId
                            "running" fuel _ tr7 _ hw3
                        subst htr7
                        simp only [Option.some.injEq, Prod.mk.injEq] at h
                        rw [← h.2]
                        simp [List.all_append, all_replicate_apicall, ApiCall.isMainSequenceOp,
                          mkRunInstancesCall]
                      · rename_i u4 tr7 hw3
                        obtain ⟨n3, hn3, htr7⟩ :=
                          waitForInstanceState_inv env.describeInstances inst0.instanceId
                            "running" fuel _ tr7 _ hw3
                        subst htr7
                        simp only [Option.some.injEq, Prod.mk.injEq] at h
                        rw [← h.2]
                        simp [List.all_append, all_replicate_apicall, ApiCall.isMainSequenceOp,
                          mkRunInstancesCall]

end RelocScript

namespace RelocScript

/-- The operation sequence of a successful run of the AMI-based relocation
script: the initial instance lookup, then stop, the polls until stopped,
the AMI creation, the polls until the image is available, the subnet lookup
in the destination VPC and the instance availability zone, the launch from
that AMI in the found subnet, the polls until the replacement runs, and
finally the elastic-IP step (the address listing, optionally followed by
the disassociation and the association with the replacement). -/
def RelocTraceShape (env : Ec2Env) (now : Nat) (instanceId destinationVpcId : String)
    (r : RelocResult) (tr : List ApiCall) : Prop :=
  ∃ (inst : Ec2Instance) (n1 : Nat) (imageId : Option String) (n2 : Nat)
    (subnet0 : Ec2Subnet) (inst0 : RunInstanceInfo) (n3 : Nat) (rest : List ApiCall),
    0 < n1 ∧ 0 < n2 ∧ 0 < n3
    ∧ env.describeInstances 0 [some instanceId] = Except.ok (some inst)
    ∧ r.newInstanceId = inst0.instanceId ∧ r.imageId = imageId ∧ r.success = true
    ∧ tr = ApiCall.describeInstances [some instanceId]
        :: ApiCall.stopInstances [some instanceId]
        :: (List.replicate n1 (ApiCall.describeInstances [some instanceId])
          ++ ApiCall.createImage instanceId (amiName instanceId now) (amiDescription instanceId) true
          :: (List.replicate n2 (ApiCall.describeImages [imageId])
            ++ ApiCall.describeSubnets destinationVpcId inst.availabilityZone
            :: mkRunInstancesCall imageId inst subnet0.subnetId
            :: (List.replicate n3 (ApiCall.describeInstances [inst0.instanceId])
              ++ ApiCall.describeAddresses :: rest)))
    ∧ (rest = []
       ∨ (∃ a, rest = [ApiCall.disassociateAddress a])
       ∨ (∃ a b, rest = [ApiCall.disassociateAddress a,
                         ApiCall.associateAddress b inst0.instanceId]))

end RelocScript

/-- C1 amended: for the AMI-based relocateEC2BetweenVPCs of the standalone
relocation script, every successful invocation issues its compute
operations in exactly the claimed order: stop, wait until stopped, create
an AMI and wait until available, find a subnet of the destination VPC in
the instance availability zone, launch the replacement from that AMI in
that subnet, wait until it runs, and finally the elastic-IP reattachment
step (all preceded by the initial instance lookup). -/
theorem c1_relocation_order_amended (env : RelocScript.Ec2Env) (now fuel : Nat)
    (instanceId destinationVpcId : String) (r : RelocScript.RelocResult) (tr : List ApiCall)
    (h : RelocScript.relocateEC2BetweenVPCs env now fuel instanceId destinationVpcId
        = some (Except.ok r, tr)) :
    RelocScript.RelocTraceShape env now instanceId destinationVpcId r tr := by
  unfold RelocScript.relocateEC2BetweenVPCs at h
  split at h
  · simp at h
  · simp at h
  · rename_i pre tr0 hmain
    obtain ⟨inst, n1, imageId, n2, subnets, subnet0, insts, inst0, n3,
        hdesc, hvpc, hstop, hn1, hci, hn2, hsub, hhead, hrun, hhead2, hn3, hpre, htr0⟩ :=
      RelocScript.relocateMain_ok_inv env now fuel instanceId destinationVpcId pre tr0 hmain
    obtain ⟨rest, helastic, hrest⟩ :=
      RelocScript.handleElasticIP_shape env.describeAddresses env.disassociateAddress
        env.associateAddress instanceId pre.newInstanceId tr0
    simp only [Option.some.injEq, Prod.mk.injEq, Except.ok.injEq] at h
    obtain ⟨hr, ht⟩ := h
    refine ⟨inst, n1, imageId, n2, subnet0, inst0, n3, rest, hn1, hn2, hn3, hdesc,
      ?_, ?_, ?_, ?_, ?_⟩
    · rw [← hr, hpre]
    · rw [← hr, hpre]
    · rw [← hr]
    · rw [← ht, helastic, htr0]
      simp [List.append_assoc]
    · rw [hpre] at hrest
      exact hrest

/-- C5: in the AMI-based relocation workflow, failures of the elastic-IP
step are non-fatal while failures of every earlier step are fatal with no
compensating action.  First, the success result is independent of the
elastic-IP environment: replacing the address operations by any (also
always-failing) ones preserves the successful outcome and its value.
Second, a run that throws has issued no elastic-IP operation and no
terminate operation at all - the error aborted the sequence immediately and
nothing compensating was issued.  Third, a successful run certifies that
every earlier step (describe, stop, the wait polls, image creation, subnet
lookup, launch) received a successful response, so a failure of any of them
cannot yield a success. -/
theorem c5_elastic_nonfatal_other_steps_fatal :
    (∀ (env : RelocScript.Ec2Env) (dA : Nat → Except String (List RelocScript.Ec2Address))
       (dis : Nat → Option String → Except String Unit)
       (assoc : Nat → Option String → Option String → Except String Unit)
       (now fuel : Nat) (instanceId destinationVpcId : String)
       (r : RelocScript.RelocResult) (t : List ApiCall),
       RelocScript.relocateEC2BetweenVPCs env now fuel instanceId destinationVpcId
           = some (Except.ok r, t) →
       ∃ t2, RelocScript.relocateEC2BetweenVPCs
           { env with describeAddresses := dA, disassociateAddress := dis,
                      associateAddress := assoc }
           now fuel instanceId destinationVpcId = some (Except.ok r, t2))
    ∧ (∀ (env : RelocScript.Ec2Env) (now fuel : Nat) (instanceId destinationVpcId : String)
         (e : RelocScript.RelocError) (t : List ApiCall),
        RelocScript.relocateEC2BetweenVPCs env now fuel instanceId destinationVpcId
            = some (Except.error e, t) →
        ∀ c ∈ t, c.isElastic = false ∧ c.isTerminate = false)
    ∧ (∀ (env : RelocScript.Ec2Env) (now fuel : Nat) (instanceId destinationVpcId : String)
         (r : RelocScript.RelocResult) (t : List ApiCall),
        RelocScript.relocateEC2BetweenVPCs env now fuel instanceId destinationVpcId
            = some (Except.ok r, t) →
        ∃ pre tr0, RelocScript.relocateMain env now fuel instanceId destinationVpcId
            = some (Except.ok pre, tr0)
          ∧ RelocScript.RelocMainSpec env now instanceId destinationVpcId pre tr0
          ∧ r.newInstanceId = pre.newInstanceId ∧ r.imageId = pre.imageId) := by
  refine ⟨?_, ?_, ?_⟩
  · intro env dA dis assoc now fuel instanceId destinationVpcId r t h
    unfold RelocScript.relocateEC2BetweenVPCs at h ⊢
    have hcore : RelocScript.relocateMain
        { env with describeAddresses := dA, disassociateAddress := dis, associateAddress := assoc }
        now fuel instanceId destinationVpcId
        = RelocScript.relocateMain env now fuel instanceId destinationVpcId := rfl
    rw [hcore]
    split at h
    · simp at h
    · simp at h
    · rename_i pre tr0 hmain
      simp only [Option.some.injEq, Prod.mk.injEq, Except.ok.injEq] at h
      obtain ⟨hr, -⟩ := h
      exact ⟨_, by rw [hr]⟩
  · intro env now fuel instanceId destinationVpcId e t h
    unfold RelocScript.relocateEC2BetweenVPCs at h
    split at h
    · simp at h
    · rename_i e2 tr0 hmain
      simp only [Option.some.injEq, Prod.mk.injEq, Except.error.injEq] at h
      obtain ⟨-, ht⟩ := h
      subst ht
      have hall := RelocScript.relocateMain_trace_ops env now fuel instanceId destinationVpcId
        (Except.error e2) tr0 hmain
      intro c hc
      exact isMainSequenceOp_not_elastic c (List.all_eq_true.mp hall c hc)
    · simp at h
  · intro env now fuel instanceId destinationVpcId r t h
    unfold RelocScript.relocateEC2BetweenVPCs at h
    split at h
    · simp at h
    · simp at h
    · rename_i pre tr0 hmain
      simp only [Option.some.injEq, Prod.mk.injEq, Except.ok.injEq] at h
      obtain ⟨hr, -⟩ := h
      refine ⟨pre, tr0, hmain,
        RelocScript.relocateMain_ok_inv env now fuel instanceId destinationVpcId pre tr0 hmain,
        ?_, ?_⟩
      · rw [← hr]
      · rw [← hr]

def cRelocEnv : RelocScript.Ec2Env :=
  { describeInstances := fun _ ids =>
      Except.ok (some
        { vpcId := some "vpc-old",
          stateName := some (if ids == [some "i-new"] then "running" else "stopped"),
          availabilityZone := some "az1", instanceType := some "t3.micro",
          iamInstanceProfileArn := none, keyName := none, tags := [] }),
    stopInstances := fun _ _ => Except.ok (),
    createImage := fun _ _ => Except.ok (some "ami-1"),
    describeImages := fun _ _ => Except.ok (some "available"),
    describeSubnets := fun _ _ _ => Except.ok [{ subnetId := some "sub-1" }],
    runInstances := fun _ _ => Except.ok [{ instanceId := some "i-new" }],
    describeAddresses := fun _ => Except.ok [],
    disassociateAddress := fun _ _ => Except.ok (),
    associateAddress := fun _ _ _ => Except.ok () }

def cRelocRes : RelocScript.RelocResult :=
  { success := true,
    message := "Successfully relocated instance i-old to VPC vpc-new",
    newInstanceId := some "i-new", imageId := some "ami-1", originalInstanceId := "i-old" }

def cRelocTrace : List ApiCall :=
  [ApiCall.describeInstances [some "i-old"],
   ApiCall.stopInstances [some "i-old"],
   ApiCall.describeInstances [some "i-old"],
   ApiCall.createImage "i-old" "relocation-ami-i-old-7" "AMI created for instance i-old relocation" true,
   ApiCall.describeImages [some "ami-1"],
   ApiCall.describeSubnets "vpc-new" (some "az1"),
   ApiCall.runInstances (some "ami-1") (some "t3.micro") (some "sub-1") 1 1 [] none none,
   ApiCall.describeInstances [some "i-new"],
   ApiCall.describeAddresses]

theorem c1_relocation_order_amended_witness :
    RelocScript.relocateEC2BetweenVPCs cRelocEnv 7 3 "i-old" "vpc-new"
      = some (Except.ok cRelocRes, cRelocTrace)
    ∧ RelocScript.RelocTraceShape cRelocEnv 7 "i-old" "vpc-new" cRelocRes cRelocTrace :=
  ⟨rfl, c1_relocation_order_amended cRelocEnv 7 3 "i-old" "vpc-new" cRelocRes cRelocTrace rfl⟩

def cEnvActionApi : EnvAction.Api :=
  { describeInstances := fun _ _ =>
      Except.ok (some
        { networkInterfaces := some
            [{ attachment := some { deviceIndex := some 0, attachmentId := some "att-1" },
               availabilityZone := some "az1" }] }),
    describeNetworkInterfaces := fun _ _ _ => Except.ok (some [{ networkInterfaceId := some "eni-2" }]),
    stopInstances := fun _ _ => Except.ok (),
    waitInstanceStopped := fun _ _ => Except.ok (),
    detachNetworkInterface := fun _ _ => Except.ok (),
    attachNetworkInterface := fun _ _ _ _ => Except.ok (),
    startInstances := fun _ _ => Except.ok () }

/-- C1 counterexample: the repository contains a second function named
relocateEC2BetweenVPCs (src/backend/src/services/EnvAction.ts, the one the
backend route imports) that relocates by swapping network interfaces.  The
following invocation of it returns successfully while issuing no CreateImage
(AMI snapshot), no subnet lookup and no elastic-IP operation at all, so the
claimed operation order does not hold for every successful invocation of
relocateEC2BetweenVPCs. -/
theorem c1_counterexample_envaction_no_ami :
    EnvAction.relocateEC2BetweenVPCs cEnvActionApi "i-0" "vpc-2"
      = (Except.ok
          { success := true,
            message := "Successfully relocated instance i-0 to VPC vpc-2",
            newNetworkInterfaceId := some "eni-2" },
         [ApiCall.describeInstances [some "i-0"],
          ApiCall.describeNetworkInterfaces "vpc-2" "available" "az1",
          ApiCall.stopInstances [some "i-0"],
          ApiCall.waiterInstanceStopped [some "i-0"],
          ApiCall.detachNetworkInterface "att-1",
          ApiCall.attachNetworkInterface (some "eni-2") "i-0" 0,
          ApiCall.startInstances [some "i-0"]])
    ∧ ([ApiCall.describeInstances [some "i-0"],
        ApiCall.describeNetworkInterfaces "vpc-2" "available" "az1",
        ApiCall.stopInstances [some "i-0"],
        ApiCall.waiterInstanceStopped [some "i-0"],
        ApiCall.detachNetworkInterface "att-1",
        ApiCall.attachNetworkInterface (some "eni-2") "i-0" 0,
        ApiCall.startInstances [some "i-0"]].all
          (fun c => !c.isCreateImage && !c.isElastic)) = true :=
  ⟨rfl, rfl⟩

theorem c5_elastic_nonfatal_other_steps_fatal_witness :
    (∃ t2, RelocScript.relocateEC2BetweenVPCs
        { cRelocEnv with describeAddresses := fun _ => Except.error "addr down",
                         disassociateAddress := fun _ _ => Except.error "addr down",
                         associateAddress := fun _ _ _ => Except.error "addr down" }
        7 3 "i-old" "vpc-new" = some (Except.ok cRelocRes, t2))
    ∧ (∀ c ∈ [ApiCall.describeInstances [some "i-old"], ApiCall.stopInstances [some "i-old"]],
        c.isElastic = false ∧ c.isTerminate = false) := by
  constructor
  · exact c5_elastic_nonfatal_other_steps_fatal.1 cRelocEnv
      (fun _ => Except.error "addr down") (fun _ _ => Except.error "addr down")
      (fun _ _ _ => Except.error "addr down") 7 3 "i-old" "vpc-new" cRelocRes cRelocTrace rfl
  · exact c5_elastic_nonfatal_other_steps_fatal.2.1
      { cRelocEnv with stopInstances := fun _ _ => Except.error "stop failed" }
      7 3 "i-old" "vpc-new" (RelocScript.RelocError.aws "stop failed")
      [ApiCall.describeInstances [some "i-old"], ApiCall.stopInstances [some "i-old"]] rfl
